import Mathlib

/-!
# Storefront client core: cart store, session manager, RPC wrapper

A shallow embedding of `src/js/cart.js`, `src/js/auth.js` and
`src/js/odoo-api.js`.

Conventions of the embedding.

* Quantities and product ids are integers (`Int`): integer arithmetic on
  JavaScript numbers is exact below 2^53.
* A price, like every JSON number, is denoted by its rational value (`Rat`).
  The operators `+` and `*` on prices are the binary64 operations `jsAdd` and
  `jsMul`: the exact result rounded to the nearest number with a 53-bit
  significand, ties to even. Overflow, underflow, `NaN` and the sign of zero
  are outside the model.
* Parsed JSON is the tree `Json`; `JSValue` adds `undefined`.
* The browser builtins `JSON.stringify`, `JSON.parse` and the string form of
  non-primitive values are fields of `Engine`: they are not code of this
  repository, and theorems that depend on their behaviour say so in a
  hypothesis.
* `localStorage` and `sessionStorage` are maps from keys to optional strings.
* An `async` method is modelled as the sequential function from the state
  before the call and the outcome of its single `fetch` to the state after.
* `console.log` and `console.error` have no effect on the modelled state.
-/

namespace Storefront

/-! ## JavaScript values -/

/-- A parsed JSON document. -/
inductive Json where
  | null
  | bool (b : Bool)
  | num (n : Rat)
  | str (s : String)
  | arr (xs : List Json)
  | obj (kvs : List (String × Json))

/-- A JavaScript value met by the modelled code: `undefined` or a JSON value. -/
inductive JSValue where
  | undefined
  | json (v : Json)

/-- The value `null`. -/
def JSValue.null : JSValue := .json .null

/-- A string value. -/
def JSValue.str (s : String) : JSValue := .json (.str s)

/-- Truthiness of a JSON value (`ToBoolean`). -/
def Json.truthy : Json → Bool
  | .null => false
  | .bool b => b
  | .num n => decide (n ≠ 0)
  | .str s => decide (s ≠ "")
  | .arr _ => true
  | .obj _ => true

/-- Truthiness of a JavaScript value (`ToBoolean`). -/
def JSValue.truthy : JSValue → Bool
  | .undefined => false
  | .json v => v.truthy

/-- The test `x !== null`. -/
def JSValue.isNotNull : JSValue → Bool
  | .json .null => false
  | _ => true

/-- A thrown `Error`; only its `message` is observed. -/
structure JSError where
  message : String

/-- The browser builtins used by the code. -/
structure Engine where
  /-- The builtin `JSON.stringify`. -/
  stringify : Json → String
  /-- The builtin `JSON.parse`; `none` stands for a thrown `SyntaxError`. -/
  parse : String → Option Json
  /-- The message of the `SyntaxError` thrown by `JSON.parse`. -/
  syntaxErrorMessage : String
  /-- The message of the `TypeError` thrown when a property of `null` or `undefined` is read. -/
  typeErrorMessage : String → String
  /-- String form (`ToString`) of numbers, arrays and objects. -/
  display : Json → String

/-- The property lookup of an object literal decoded from JSON. -/
def lookupKey (k : String) : List (String × Json) → JSValue
  | [] => .undefined
  | (k', v) :: rest => if k' = k then .json v else lookupKey k rest

/-- The property read `x.k`: it throws on `null` and `undefined`, finds the
    member of an object, and is `undefined` on every other value (none of the
    names read by the code is a builtin property of a primitive or an array). -/
def JSValue.getProp (E : Engine) (x : JSValue) (k : String) : Except JSError JSValue :=
  match x with
  | .undefined => .error ⟨E.typeErrorMessage k⟩
  | .json .null => .error ⟨E.typeErrorMessage k⟩
  | .json (.obj kvs) => .ok (lookupKey k kvs)
  | .json _ => .ok .undefined

/-- The string conversion `ToString`, as used by template literals and by `new Error(v)`. -/
def JSValue.toStr (E : Engine) : JSValue → String
  | .undefined => "undefined"
  | .json .null => "null"
  | .json (.bool true) => "true"
  | .json (.bool false) => "false"
  | .json (.str s) => s
  | .json v => E.display v

/-- An object literal as `JSON.stringify` sees it: members whose value is `undefined` are dropped. -/
def objectLiteral : List (String × JSValue) → List (String × Json)
  | [] => []
  | (k, .json v) :: rest => (k, v) :: objectLiteral rest
  | (_, .undefined) :: rest => objectLiteral rest

/-! ## Floating-point arithmetic -/

/-- The integer part of the binary logarithm of `n` (0 for `n ≤ 1`), by
    repeated halving; `fuel` bounds the number of halvings. -/
def log2Fuel : Nat → Nat → Nat
  | 0, _ => 0
  | fuel + 1, n => if 2 ≤ n then log2Fuel fuel (n / 2) + 1 else 0

/-- The integer part of the binary logarithm of `n`. -/
def floorLog2 (n : Nat) : Nat := log2Fuel n n

/-- The integer nearest to `num / den`, ties to the even one. -/
def roundHalfEven (num den : Nat) : Nat :=
  if 2 * (num % den) < den then num / den
  else if den < 2 * (num % den) then num / den + 1
  else if (num / den) % 2 = 0 then num / den
  else num / den + 1

/-- The binary64 number nearest to `n / d`, ties to even: with `e` the binary
    exponent of `|n / d|`, the quotient is rounded to a multiple of `2 ^ (e - 52)`.
    It is also the value of a decimal literal such as `9.99`. -/
def roundDouble (n : Int) (d : Nat) : Rat :=
  if n = 0 ∨ d = 0 then 0
  else
    let a : Nat := n.natAbs
    let e0 : Int := (floorLog2 a : Int) - (floorLog2 d : Int)
    let atLeast : Bool :=
      if 0 ≤ e0 then decide (d * 2 ^ e0.toNat ≤ a) else decide (d ≤ a * 2 ^ (-e0).toNat)
    let e : Int := if atLeast then e0 else e0 - 1
    let s : Int := e - 52
    let sign : Int := if n < 0 then -1 else 1
    if 0 ≤ s then mkRat (sign * (roundHalfEven a (d * 2 ^ s.toNat) * 2 ^ s.toNat : Nat)) 1
    else mkRat (sign * (roundHalfEven (a * 2 ^ (-s).toNat) d : Nat)) (2 ^ (-s).toNat)

/-- The operator `+` on numbers: the exact sum rounded to binary64. -/
def jsAdd (a b : Rat) : Rat := roundDouble (a.num * b.den + b.num * a.den) (a.den * b.den)

/-- The operator `*` on numbers: the exact product rounded to binary64. -/
def jsMul (a b : Rat) : Rat := roundDouble (a.num * b.num) (a.den * b.den)

/-- The floating-point sum of a list of numbers, accumulated from the left, the
    running total starting at `start`. -/
def floatSumFrom (start : Rat) (xs : List Rat) : Rat := xs.foldl jsAdd start

/-- The floating-point sum of a list of numbers, accumulated from the left from 0. -/
def floatSum (xs : List Rat) : Rat := floatSumFrom 0 xs

/-! ## Browser storage -/

/-- A `Storage` object (`localStorage`, `sessionStorage`): keys to stored strings. -/
abbrev Storage := String → Option String

/-- The storage with no record. -/
def Storage.empty : Storage := fun _ => none

/-- The method `getItem(key)`; `none` is `null`. -/
def Storage.getItem (st : Storage) (key : String) : Option String := st key

/-- The method `setItem(key, value)`. -/
def Storage.setItem (st : Storage) (key value : String) : Storage :=
  fun k => if k = key then some value else st k

/-- The method `removeItem(key)`. -/
def Storage.removeItem (st : Storage) (key : String) : Storage :=
  fun k => if k = key then none else st k

/-! ## `src/js/cart.js` -/

/-- A catalog record as the cart reads it: `id`, `name`, `list_price`, and the
    remaining server-supplied fields. -/
structure Product where
  id : Int
  name : String
  list_price : Rat
  fields : List (String × Json)

/-- One element of `Cart.items`: `{product, quantity}`. -/
structure CartItem where
  product : Product
  quantity : Int

/-- The JSON form of a product. -/
def Product.toJson (p : Product) : Json :=
  .obj (("id", .num p.id) :: ("name", .str p.name) :: ("list_price", .num p.list_price) :: p.fields)

/-- The JSON form of a cart item. -/
def CartItem.toJson (item : CartItem) : Json :=
  .obj [("product", item.product.toJson), ("quantity", .num item.quantity)]

/-- The state a `Cart` method acts on: the field `this.items` and the browser `localStorage`. -/
structure Cart where
  items : List CartItem
  localStorage : Storage

/-- The key of the cart record. -/
def cartKey : String := "odoo_cart"

/-- `Cart.saveToStorage`, cart.js lines 117-119. -/
def Cart.saveToStorage (E : Engine) (self : Cart) : Cart :=
  { self with
    localStorage := self.localStorage.setItem cartKey (E.stringify (.arr (self.items.map CartItem.toJson))) }

/-- The in-place update of the object returned by `Array.prototype.find`:
    the first element satisfying `p` is replaced by `f` of it. -/
def mutateFirst (p : CartItem → Bool) (f : CartItem → CartItem) : List CartItem → List CartItem
  | [] => []
  | x :: xs => if p x then f x :: xs else x :: mutateFirst p f xs

/-- `Cart.addProduct`, cart.js lines 17-31. -/
def Cart.addProduct (E : Engine) (self : Cart) (product : Product) (quantity : Int) : Cart :=
  match self.items.find? (fun item => item.product.id == product.id) with
  | some _ =>
    Cart.saveToStorage E
      { self with
        items := mutateFirst (fun item => item.product.id == product.id)
          (fun existingItem => { existingItem with quantity := existingItem.quantity + quantity })
          self.items }
  | none =>
    Cart.saveToStorage E
      { self with items := self.items ++ [{ product := product, quantity := quantity }] }

/-- `Cart.removeProduct`, cart.js lines 37-48: the new state and the returned boolean. -/
def Cart.removeProduct (E : Engine) (self : Cart) (productId : Int) : Cart × Bool :=
  match self.items.findIdx? (fun item => item.product.id == productId) with
  | some index => (Cart.saveToStorage E { self with items := self.items.eraseIdx index }, true)
  | none => (self, false)

/-- `Cart.updateQuantity`, cart.js lines 55-69: the new state and the returned boolean. -/
def Cart.updateQuantity (E : Engine) (self : Cart) (productId : Int) (quantity : Int) : Cart × Bool :=
  match self.items.find? (fun item => item.product.id == productId) with
  | some _ =>
    if quantity ≤ 0 then
      ((Cart.removeProduct E self productId).1, true)
    else
      (Cart.saveToStorage E
        { self with
          items := mutateFirst (fun item => item.product.id == productId)
            (fun item => { item with quantity := quantity }) self.items },
       true)
  | none => (self, false)

/-- `Cart.getItems`, cart.js lines 75-77. -/
def Cart.getItems (self : Cart) : List CartItem := self.items

/-- `Cart.getItemCount`, cart.js lines 83-85. -/
def Cart.getItemCount (self : Cart) : Int :=
  self.items.foldl (fun total item => total + item.quantity) 0

/-- `Cart.getTotal`, cart.js lines 91-95. -/
def Cart.getTotal (self : Cart) : Rat :=
  self.items.foldl
    (fun total item => jsAdd total (jsMul item.product.list_price (item.quantity : Rat))) 0

/-- The term of an item in the total: the floating-point product
    `list_price × quantity`. -/
def CartItem.lineTotal (item : CartItem) : Rat :=
  jsMul item.product.list_price (item.quantity : Rat)

/-- `Cart.clear`, cart.js lines 100-104. -/
def Cart.clear (E : Engine) (self : Cart) : Cart :=
  Cart.saveToStorage E { self with items := [] }

/-- `Cart.isEmpty`, cart.js lines 110-112. -/
def Cart.isEmpty (self : Cart) : Bool := self.items.length == 0

/-- A mutating call on the cart. -/
inductive CartOp where
  | addProduct (product : Product) (quantity : Int)
  | removeProduct (productId : Int)
  | updateQuantity (productId : Int) (quantity : Int)
  | clear

/-- The state after one mutating call. -/
def Cart.step (E : Engine) (self : Cart) : CartOp → Cart
  | .addProduct product quantity => Cart.addProduct E self product quantity
  | .removeProduct productId => (Cart.removeProduct E self productId).1
  | .updateQuantity productId quantity => (Cart.updateQuantity E self productId quantity).1
  | .clear => Cart.clear E self

/-- The state after a sequence of mutating calls, first call first. -/
def Cart.run (E : Engine) (self : Cart) (ops : List CartOp) : Cart :=
  ops.foldl (Cart.step E) self

/-- The cart with no item, over a given `localStorage`. -/
def Cart.emptyOver (ls : Storage) : Cart := { items := [], localStorage := ls }

/-- No two items share a product id. -/
def Cart.UniqueIds (self : Cart) : Prop := (self.items.map (fun item => item.product.id)).Nodup

/-- The calls `addProduct(product, quantity)` of a list, first call first. -/
def Cart.addAll (E : Engine) (self : Cart) (calls : List (Product × Int)) : Cart :=
  calls.foldl (fun c call => Cart.addProduct E c call.1 call.2) self

/-- Every stored item has quantity at least 1. -/
def Cart.PositiveQuantities (self : Cart) : Prop := ∀ item ∈ self.items, 1 ≤ item.quantity

/-- The call is not an `addProduct` with a quantity below 1. -/
def CartOp.addsPositive : CartOp → Prop
  | .addProduct _ quantity => 1 ≤ quantity
  | _ => True

/-- One element of the array returned by `getOrderLines`. -/
structure OrderLine where
  product_id : Int
  product_uom_qty : Int
  price_unit : Rat
  name : String

/-- `Cart.getOrderLines`, cart.js lines 141-148. The method only reads
    `this.items`, so it is a function of the state. -/
def Cart.getOrderLines (self : Cart) : List OrderLine :=
  self.items.map (fun item =>
    { product_id := item.product.id,
      product_uom_qty := item.quantity,
      price_unit := item.product.list_price,
      name := item.product.name })

/-- The body of the `try` in `loadFromStorage`, cart.js lines 128-129: the value
    assigned to `this.items`, or the error thrown by `JSON.parse` or by the read
    of `this.items.length` in the log line (which throws on `null`). -/
def Cart.readStored (E : Engine) (cartData : String) : Except JSError Json :=
  match E.parse cartData with
  | none => .error ⟨E.syntaxErrorMessage⟩
  | some .null => .error ⟨E.typeErrorMessage "length"⟩
  | some parsed => .ok parsed

/-- `Cart.loadFromStorage`, cart.js lines 124-135: the value of `this.items`
    afterwards, given its value before. The parsed record is assigned as it is. -/
def Cart.loadFromStorage (E : Engine) (items : Json) (localStorage : Storage) : Json :=
  match localStorage.getItem cartKey with
  | some cartData =>
    if cartData ≠ "" then
      match Cart.readStored E cartData with
      | .ok parsed => parsed
      | .error _ => .arr []
    else items
  | none => items

/-- The constructor of `Cart`, cart.js lines 7-10: the value of `this.items` of
    the new cart over a given `localStorage`. -/
def Cart.new (E : Engine) (localStorage : Storage) : Json :=
  Cart.loadFromStorage E (.arr []) localStorage

/-- The array `this.items` as a JavaScript value. -/
def itemsJson (items : List CartItem) : Json := .arr (items.map CartItem.toJson)

/-- Reads a product back from its JSON form. -/
def Product.ofJson : Json → Option Product
  | .obj ((k1, .num i) :: (k2, .str n) :: (k3, .num price) :: fields) =>
    if k1 = "id" ∧ k2 = "name" ∧ k3 = "list_price" ∧ i.den = 1 then
      some { id := i.num, name := n, list_price := price, fields := fields }
    else none
  | _ => none

/-- Reads a cart item `{product, quantity}` back from its JSON form. -/
def CartItem.ofJson : Json → Option CartItem
  | .obj [(k1, product), (k2, .num q)] =>
    if k1 = "product" ∧ k2 = "quantity" ∧ q.den = 1 then
      match Product.ofJson product with
      | some p => some { product := p, quantity := q.num }
      | none => none
    else none
  | _ => none

/-- Reads a list of cart items back from the elements of a JSON array. -/
def decodeItemList : List Json → Option (List CartItem)
  | [] => some []
  | j :: js =>
    match CartItem.ofJson j, decodeItemList js with
    | some item, some items => some (item :: items)
    | _, _ => none

/-- The item list held by a JavaScript value, when it is a sequence of
    `{product, quantity}` items. -/
def decodeItems : Json → Option (List CartItem)
  | .arr xs => decodeItemList xs
  | _ => none

/-- The call writes the cart record: every `addProduct` and `clear`, and a
    `removeProduct` or `updateQuantity` whose product id is present. -/
def CartOp.Writes (items : List CartItem) : CartOp → Prop
  | .addProduct _ _ => True
  | .removeProduct productId => ∃ item ∈ items, item.product.id = productId
  | .updateQuantity productId _ => ∃ item ∈ items, item.product.id = productId
  | .clear => True

/-! ## The browser: session storage and network -/

/-- A `fetch` issued by the code: always a JSON `POST` with credentials included. -/
structure Request where
  url : String
  body : String

/-- What a `fetch` followed by `response.json()` yields. -/
inductive FetchOutcome where
  /-- The call `fetch(...)` rejects (transport failure) with an error of this message. -/
  | networkError (message : String)
  /-- The call `response.json()` rejects (the body is not JSON) with an error of this message. -/
  | invalidBody (message : String)
  /-- The call `response.json()` resolves to this document. -/
  | json (data : Json)

/-- The browser state the session manager and the RPC client act on. -/
structure Browser where
  /-- The browser `sessionStorage`. -/
  sessionStorage : Storage
  /-- The requests issued so far, oldest first. -/
  requests : List Request

/-- A browser with empty session storage and no request issued. -/
def Browser.fresh : Browser := { sessionStorage := Storage.empty, requests := [] }

/-- The request envelope `{jsonrpc: "2.0", method: "call", params, id}`;
    `rid` is the value of `Math.floor(Math.random() * 1000000)`. -/
def requestEnvelope (params : Json) (rid : Nat) : Json :=
  .obj [("jsonrpc", .str "2.0"), ("method", .str "call"), ("params", params), ("id", .num rid)]

/-! ## `src/js/auth.js` -/

/-- The fields of an `OdooAuth` instance. -/
structure OdooAuth where
  sessionId : JSValue
  userId : JSValue
  serverUrl : JSValue
  database : JSValue

/-- The constructor of `OdooAuth`, auth.js lines 7-12. -/
def OdooAuth.new : OdooAuth :=
  { sessionId := .null, userId := .null, serverUrl := .null, database := .null }

/-- The object returned by `authenticate`; an absent member is `undefined`. -/
structure AuthResult where
  success : Bool
  sessionId : JSValue
  userId : JSValue
  message : String

/-- The key of the session record. -/
def sessionKey : String := "odoo_session"

/-- The object literal `{userId, serverUrl, database}` written by `saveSession`. -/
def sessionRecord (userId serverUrl database : JSValue) : Json :=
  .obj (objectLiteral [("userId", userId), ("serverUrl", serverUrl), ("database", database)])

/-- `OdooAuth.saveSession`, auth.js lines 83-91. -/
def OdooAuth.saveSession (E : Engine) (self : OdooAuth) (B : Browser) : Browser :=
  if self.userId.truthy then
    { B with
      sessionStorage := B.sessionStorage.setItem sessionKey
        (E.stringify (sessionRecord self.userId self.serverUrl self.database)) }
  else B

/-- The failure object built in the `catch` of `authenticate`. -/
def AuthResult.failure (message : String) : AuthResult :=
  { success := false, sessionId := .undefined, userId := .undefined, message := message }

/-- `OdooAuth.authenticate`, auth.js lines 22-78. `rid` is the random request id
    and `outcome` what the `fetch` of this call yields. -/
def OdooAuth.authenticate (E : Engine) (self : OdooAuth) (B : Browser)
    (url database username password : String) (rid : Nat) (outcome : FetchOutcome) :
    AuthResult × OdooAuth × Browser :=
  let self1 : OdooAuth := { self with serverUrl := .str url, database := .str database }
  let requestBody : Json :=
    requestEnvelope
      (.obj [("db", .str database), ("login", .str username), ("password", .str password)]) rid
  let B1 : Browser :=
    { B with
      requests := B.requests ++
        [{ url := url ++ "/web/session/authenticate", body := E.stringify requestBody }] }
  match outcome with
  | .networkError message => (AuthResult.failure message, self1, B1)
  | .invalidBody message => (AuthResult.failure message, self1, B1)
  | .json data =>
    match JSValue.getProp E (.json data) "result" with
    | .error error => (AuthResult.failure error.message, self1, B1)
    | .ok result =>
      if result.truthy then
        match JSValue.getProp E result "uid" with
        | .error error => (AuthResult.failure error.message, self1, B1)
        | .ok uid =>
          if uid.truthy then
            match JSValue.getProp E result "session_id" with
            | .error error => (AuthResult.failure error.message, self1, B1)
            | .ok sessionId =>
              let self2 : OdooAuth := { self1 with sessionId := sessionId, userId := uid }
              ({ success := true, sessionId := sessionId, userId := uid,
                 message := "Authentication successful" },
               self2, OdooAuth.saveSession E self2 B1)
          else
            (AuthResult.failure "Authentication failed: Invalid credentials", self1, B1)
      else
        (AuthResult.failure "Authentication failed: Invalid credentials", self1, B1)

/-- `OdooAuth.loadSession`, auth.js lines 97-108: the returned boolean and the
    fields afterwards, or the error thrown by `JSON.parse` or by a property read. -/
def OdooAuth.loadSession (E : Engine) (self : OdooAuth) (B : Browser) :
    Except JSError (Bool × OdooAuth) :=
  match B.sessionStorage.getItem sessionKey with
  | some sessionData =>
    if sessionData ≠ "" then
      match E.parse sessionData with
      | none => .error ⟨E.syntaxErrorMessage⟩
      | some session =>
        match JSValue.getProp E (.json session) "userId" with
        | .error error => .error error
        | .ok userId =>
          match JSValue.getProp E (.json session) "serverUrl" with
          | .error error => .error error
          | .ok serverUrl =>
            match JSValue.getProp E (.json session) "database" with
            | .error error => .error error
            | .ok database =>
              .ok (true, { self with userId := userId, serverUrl := serverUrl, database := database })
    else .ok (false, self)
  | none => .ok (false, self)

/-- `OdooAuth.logout`, auth.js lines 113-120. -/
def OdooAuth.logout (_self : OdooAuth) (B : Browser) : OdooAuth × Browser :=
  ({ sessionId := .null, userId := .null, serverUrl := .null, database := .null },
   { B with sessionStorage := B.sessionStorage.removeItem sessionKey })

/-- `OdooAuth.isAuthenticated`, auth.js lines 126-130. -/
def OdooAuth.isAuthenticated (self : OdooAuth) : Bool := self.userId.isNotNull

/-- The object returned by `getSessionInfo`. -/
structure SessionInfo where
  userId : JSValue
  serverUrl : JSValue
  database : JSValue

/-- `OdooAuth.getSessionInfo`, auth.js lines 136-145; `none` is `null`. -/
def OdooAuth.getSessionInfo (self : OdooAuth) : Option SessionInfo :=
  if self.isAuthenticated then
    some { userId := self.userId, serverUrl := self.serverUrl, database := self.database }
  else none

/-- The response carries a user identifier: the test `data.result && data.result.uid`. -/
def FetchOutcome.carriesUid : FetchOutcome → Bool
  | .json (.obj kvs) =>
    match lookupKey "result" kvs with
    | .json (.obj result) => (lookupKey "uid" result).truthy
    | _ => false
  | _ => false

/-- A call on the session manager. -/
inductive AuthAction where
  | authenticate (url database username password : String) (rid : Nat) (outcome : FetchOutcome)
  | loadSession
  | logout

/-- The call is an `authenticate` whose response carries a user identifier. -/
def AuthAction.carriesUid : AuthAction → Bool
  | .authenticate _ _ _ _ _ outcome => outcome.carriesUid
  | _ => false

/-- The manager and browser after one call; a call that throws leaves both as they were. -/
def OdooAuth.step (E : Engine) (state : OdooAuth × Browser) : AuthAction → OdooAuth × Browser
  | .authenticate url database username password rid outcome =>
    (OdooAuth.authenticate E state.1 state.2 url database username password rid outcome).2
  | .loadSession =>
    match OdooAuth.loadSession E state.1 state.2 with
    | .ok (_, self) => (self, state.2)
    | .error _ => state
  | .logout => OdooAuth.logout state.1 state.2

/-- The manager and browser after a sequence of calls, first call first. -/
def OdooAuth.run (E : Engine) (state : OdooAuth × Browser) (actions : List AuthAction) :
    OdooAuth × Browser :=
  actions.foldl (OdooAuth.step E) state

/-- The request issued by `authenticate`. -/
def authRequest (E : Engine) (url database username password : String) (rid : Nat) : Request :=
  { url := url ++ "/web/session/authenticate",
    body := E.stringify (requestEnvelope
      (.obj [("db", .str database), ("login", .str username), ("password", .str password)]) rid) }

/-- The state kept by every call before the first successful `authenticate`. -/
def SignedOut (state : OdooAuth × Browser) : Prop :=
  state.1.userId = .null ∧ state.2.sessionStorage.getItem sessionKey = none

/-! ## `src/js/odoo-api.js` -/

/-- The optional read `x?.k`: `undefined` when `x` is `null` or `undefined`. -/
def JSValue.getPropOpt (x : JSValue) (k : String) : JSValue :=
  match x with
  | .json (.obj kvs) => lookupKey k kvs
  | _ => .undefined

/-- `OdooAPI.call`, odoo-api.js lines 18-52, for the client bound to `auth`:
    the returned value or the thrown error, and the browser afterwards. -/
def OdooAPI.call (E : Engine) (auth : OdooAuth) (B : Browser) (endpoint : String)
    (params : Json) (rid : Nat) (outcome : FetchOutcome) : Except JSError JSValue × Browser :=
  if !auth.isAuthenticated then
    (.error ⟨"Not authenticated. Please login first."⟩, B)
  else
    match auth.getSessionInfo with
    | none => (.error ⟨E.typeErrorMessage "serverUrl"⟩, B)
    | some sessionInfo =>
      let requestBody : Json := requestEnvelope params rid
      let B1 : Browser :=
        { B with
          requests := B.requests ++
            [{ url := sessionInfo.serverUrl.toStr E ++ endpoint, body := E.stringify requestBody }] }
      match outcome with
      | .networkError message => (.error ⟨message⟩, B1)
      | .invalidBody message => (.error ⟨message⟩, B1)
      | .json data =>
        match JSValue.getProp E (.json data) "error" with
        | .error error => (.error error, B1)
        | .ok dataError =>
          if dataError.truthy then
            match JSValue.getProp E dataError "data" with
            | .error error => (.error error, B1)
            | .ok errorData =>
              let message := errorData.getPropOpt "message"
              if message.truthy then (.error ⟨message.toStr E⟩, B1)
              else (.error ⟨"API call failed"⟩, B1)
          else
            match JSValue.getProp E (.json data) "result" with
            | .error error => (.error error, B1)
            | .ok result => (.ok result, B1)

/-- `OdooAPI.create`, odoo-api.js lines 105-114. -/
def OdooAPI.create (E : Engine) (auth : OdooAuth) (B : Browser) (model : String)
    (values : Json) (rid : Nat) (outcome : FetchOutcome) : Except JSError JSValue × Browser :=
  OdooAPI.call E auth B "/web/dataset/call_kw"
    (.obj [("model", .str model), ("method", .str "create"), ("args", .arr [values]),
      ("kwargs", .obj [])])
    rid outcome

/-- The constant `orderData` of `createSaleOrder`, odoo-api.js lines 172-183. -/
def OdooAPI.orderData (E : Engine) (partnerId : Int) (orderLines : List OrderLine) : Json :=
  let formattedLines : List Json := orderLines.map (fun line =>
    .arr [.num 0, .num 0,
      .obj [("product_id", .num line.product_id),
        ("product_uom_qty", .num line.product_uom_qty),
        ("price_unit", .num line.price_unit),
        ("name", .str (if line.name ≠ "" then line.name
          else "Produit " ++ JSValue.toStr E (.json (.num line.product_id))))]])
  .obj [("partner_id", .num partnerId), ("order_line", .arr formattedLines),
    ("state", .str "draft")]

/-- `OdooAPI.createSaleOrder`, odoo-api.js lines 170-188. -/
def OdooAPI.createSaleOrder (E : Engine) (auth : OdooAuth) (B : Browser) (partnerId : Int)
    (orderLines : List OrderLine) (rid : Nat) (outcome : FetchOutcome) :
    Except JSError JSValue × Browser :=
  OdooAPI.create E auth B "sale.order" (OdooAPI.orderData E partnerId orderLines) rid outcome

/-- The triple `[0, 0, values]` that asks the server to create a sub-record. -/
def createTriple (values : Json) : Json := .arr [.num 0, .num 0, values]

/-- The values of an order line as the claim on `createSaleOrder` words them:
    product id, quantity, unit price and the given display name. -/
def lineValues (line : OrderLine) (name : String) : Json :=
  .obj [("product_id", .num line.product_id),
    ("product_uom_qty", .num line.product_uom_qty),
    ("price_unit", .num line.price_unit),
    ("name", .str name)]

/-- The parameters of a `create` on a model. -/
def createParams (model : String) (values : Json) : Json :=
  .obj [("model", .str model), ("method", .str "create"), ("args", .arr [values]),
    ("kwargs", .obj [])]

/-! ## A concrete engine

A small JSON printer and reader over integers, finite decimals, strings with
escaped quotes and backslashes, arrays and objects. It instantiates `Engine`
at concrete inputs. -/

namespace MiniJson

/-- The double quote. -/
def quoteChar : Char := Char.ofNat 34
/-- The backslash. -/
def backslashChar : Char := Char.ofNat 92
/-- The opening brace. -/
def openBrace : Char := Char.ofNat 123
/-- The closing brace. -/
def closeBrace : Char := Char.ofNat 125

/-- Escapes quotes and backslashes inside a string literal. -/
def escape : List Char → List Char
  | [] => []
  | c :: cs =>
    if c = quoteChar ∨ c = backslashChar then backslashChar :: c :: escape cs
    else c :: escape cs

/-- A quoted string literal. -/
def showString (s : String) : List Char := quoteChar :: (escape s.data ++ [quoteChar])

/-- The decimal digits of `r / d` after the point, at most `fuel` of them. -/
def fracDigits : Nat → Nat → Nat → List Char
  | 0, _, _ => []
  | fuel + 1, r, d =>
    if r = 0 then [] else Nat.digitChar (r * 10 / d) :: fracDigits fuel (r * 10 % d) d

/-- A number in decimal. -/
def showNum (q : Rat) : List Char :=
  (if q.num < 0 then ['-'] else []) ++ Nat.toDigits 10 (q.num.natAbs / q.den) ++
    (if q.num.natAbs % q.den = 0 then [] else '.' :: fracDigits 17 (q.num.natAbs % q.den) q.den)

mutual
/-- Prints a JSON value, its array elements and its object members. -/
def showJson : Json → List Char
  | .null => "null".data
  | .bool true => "true".data
  | .bool false => "false".data
  | .num q => showNum q
  | .str s => showString s
  | .arr xs => '[' :: (showElems xs ++ [']'])
  | .obj kvs => openBrace :: (showMembers kvs ++ [closeBrace])
def showElems : List Json → List Char
  | [] => []
  | [x] => showJson x
  | x :: y :: rest => showJson x ++ ',' :: showElems (y :: rest)
def showMembers : List (String × Json) → List Char
  | [] => []
  | [(k, v)] => showString k ++ ':' :: showJson v
  | (k, v) :: m :: rest => showString k ++ ':' :: showJson v ++ ',' :: showMembers (m :: rest)
end

/-- Drops leading white space. -/
def skipWs : List Char → List Char
  | [] => []
  | c :: cs => if c = ' ' ∨ c = '\n' ∨ c = '\t' ∨ c = '\r' then skipWs cs else c :: cs

/-- Reads a string literal after its opening quote; `acc` holds the characters read, last first. -/
def readString : List Char → List Char → Option (String × List Char)
  | [], _ => none
  | c :: cs, acc =>
    if c = quoteChar then some (String.mk acc.reverse, cs)
    else if c = backslashChar then
      match cs with
      | [] => none
      | d :: ds =>
        if d = quoteChar ∨ d = backslashChar then readString ds (d :: acc) else none
    else readString cs (c :: acc)

/-- Splits off the leading decimal digits. -/
def readDigits : List Char → List Char → List Char × List Char
  | [], acc => (acc.reverse, [])
  | c :: cs, acc => if c.isDigit then readDigits cs (c :: acc) else (acc.reverse, c :: cs)

/-- The number written by a list of decimal digits. -/
def digitsValue (ds : List Char) : Nat := ds.foldl (fun n c => 10 * n + (c.toNat - 48)) 0

/-- Reads digits with an optional fraction. -/
def readUnsigned (cs : List Char) : Option (Rat × List Char) :=
  match readDigits cs [] with
  | ([], _) => none
  | (ds, '.' :: rest) =>
    match readDigits rest [] with
    | ([], _) => none
    | (fs, rest2) => some (mkRat (digitsValue (ds ++ fs)) (10 ^ fs.length), rest2)
  | (ds, rest) => some ((digitsValue ds : Rat), rest)

/-- Reads a number with an optional minus sign. -/
def readNumber : List Char → Option (Rat × List Char)
  | '-' :: cs => (readUnsigned cs).map (fun r => (-r.1, r.2))
  | cs => readUnsigned cs

mutual
/-- Reads a JSON value, array elements and object members; `fuel` bounds the nesting and the number of elements. -/
def readValue : Nat → List Char → Option (Json × List Char)
  | 0, _ => none
  | fuel + 1, cs =>
    match skipWs cs with
    | 'n' :: 'u' :: 'l' :: 'l' :: rest => some (.null, rest)
    | 't' :: 'r' :: 'u' :: 'e' :: rest => some (.bool true, rest)
    | 'f' :: 'a' :: 'l' :: 's' :: 'e' :: rest => some (.bool false, rest)
    | '[' :: rest =>
      match skipWs rest with
      | ']' :: rest2 => some (.arr [], rest2)
      | _ => (readElems fuel rest).map (fun r => (.arr r.1, r.2))
    | c :: rest =>
      if c = quoteChar then (readString rest []).map (fun r => (.str r.1, r.2))
      else if c = openBrace then
        match skipWs rest with
        | [] => none
        | d :: rest2 =>
          if d = closeBrace then some (.obj [], rest2)
          else (readMembers fuel rest).map (fun r => (.obj r.1, r.2))
      else (readNumber (c :: rest)).map (fun r => (.num r.1, r.2))
    | [] => none
def readElems : Nat → List Char → Option (List Json × List Char)
  | 0, _ => none
  | fuel + 1, cs =>
    match readValue fuel cs with
    | none => none
    | some (v, rest) =>
      match skipWs rest with
      | ',' :: rest2 => (readElems fuel rest2).map (fun r => (v :: r.1, r.2))
      | ']' :: rest2 => some ([v], rest2)
      | _ => none
def readMembers : Nat → List Char → Option (List (String × Json) × List Char)
  | 0, _ => none
  | fuel + 1, cs =>
    match skipWs cs with
    | [] => none
    | q :: rest =>
      if q = quoteChar then
        match readString rest [] with
        | none => none
        | some (k, rest2) =>
          match skipWs rest2 with
          | ':' :: rest3 =>
            match readValue fuel rest3 with
            | none => none
            | some (v, rest4) =>
              match skipWs rest4 with
              | [] => none
              | d :: rest5 =>
                if d = ',' then (readMembers fuel rest5).map (fun r => ((k, v) :: r.1, r.2))
                else if d = closeBrace then some ([(k, v)], rest5)
                else none
          | _ => none
      else none
end

/-- Prints a JSON value. -/
def stringify (v : Json) : String := String.mk (showJson v)

/-- Reads a JSON text; `none` when the text is not JSON. -/
def parse (s : String) : Option Json :=
  match readValue (s.data.length + 1) s.data with
  | some (v, rest) => if skipWs rest = [] then some v else none
  | none => none

end MiniJson


/-- String form of a JSON value inside `ToString`: numbers in decimal, objects
    as `[object Object]`, arrays as their elements joined by commas. -/
def displayJson : Json → List Char
  | .null => []
  | .bool true => "true".data
  | .bool false => "false".data
  | .num q => MiniJson.showNum q
  | .str s => s.data
  | .arr xs => MiniJson.showElems xs
  | .obj _ => "[object Object]".data

/-- The concrete engine built from `MiniJson`. -/
def miniEngine : Engine where
  stringify := MiniJson.stringify
  parse := MiniJson.parse
  syntaxErrorMessage := "Unexpected token in JSON"
  typeErrorMessage := fun k => "Cannot read properties of null (reading " ++ k ++ ")"
  display := fun v => String.mk (displayJson v)

/-- The product of the worked example of the specification. -/
def widget : Product := { id := 1, name := "Widget", list_price := mkRat 999 100, fields := [] }

/-- The widget as the literal `{id: 1, name: "Widget", list_price: 9.99}` denotes
    it: the price is the binary64 number nearest to 9.99. -/
def widgetDouble : Product :=
  { id := 1, name := "Widget", list_price := roundDouble 999 100, fields := [] }

/-- A product priced at the literal `0.1`. -/
def dime : Product := { id := 3, name := "Dime", list_price := roundDouble 1 10, fields := [] }

/-- A product priced at the literal `0.2`. -/
def twoDimes : Product :=
  { id := 4, name := "Two dimes", list_price := roundDouble 2 10, fields := [] }

/-- A browser whose session storage holds a session record and which has issued no request. -/
def restoredBrowser : Browser :=
  { sessionStorage := Storage.empty.setItem sessionKey
      (miniEngine.stringify
        (sessionRecord (.json (.num 7)) (.str "https://erp.example") (.str "shop"))),
    requests := [] }

/-- A second product. -/
def gadget : Product := { id := 2, name := "Gadget", list_price := 5, fields := [] }

/-- A manager as `loadSession` or a successful `authenticate` leaves it. -/
def signedIn : OdooAuth :=
  { sessionId := .undefined, userId := .json (.num 7),
    serverUrl := .str "https://erp.example", database := .str "shop" }

/-- A login response carrying the user identifier 7. -/
def loginOk : FetchOutcome := .json (.obj [("result", .obj [("uid", .num 7)])])

/-- A login response without a user identifier. -/
def loginRejected : FetchOutcome := .json (.obj [("result", .obj [("uid", .bool false)])])

/-! ## Lemmas on the cart operations -/

@[simp] theorem saveToStorage_items (E : Engine) (c : Cart) :
    (Cart.saveToStorage E c).items = c.items := rfl

theorem mutateFirst_map_id (p : CartItem → Bool) (g : CartItem → Int) (l : List CartItem) :
    (mutateFirst p (fun item => { item with quantity := g item }) l).map
        (fun item => item.product.id)
      = l.map (fun item => item.product.id) := by
  induction l with
  | nil => rfl
  | cons x xs ih =>
    unfold mutateFirst
    split
    · simp
    · simp [ih]

theorem mutateFirst_append_last (p : CartItem → Bool) (f : CartItem → CartItem)
    (pre : List CartItem) (x : CartItem) (hpre : ∀ y ∈ pre, p y = false) (hx : p x = true) :
    mutateFirst p f (pre ++ [x]) = pre ++ [f x] := by
  induction pre with
  | nil => simp [mutateFirst, hx]
  | cons y ys ih =>
    have hy : p y = false := hpre y (List.mem_cons_self _ _)
    have hys : ∀ z ∈ ys, p z = false := fun z hz => hpre z (List.mem_cons_of_mem _ hz)
    simp [mutateFirst, hy, ih hys]

theorem find?_append_last_isSome (p : CartItem → Bool) (pre : List CartItem) (x : CartItem)
    (hx : p x = true) : ∃ y, (pre ++ [x]).find? p = some y := by
  cases h : (pre ++ [x]).find? p with
  | some y => exact ⟨y, rfl⟩
  | none =>
    rw [List.find?_eq_none] at h
    have := h x (by simp)
    simp [hx] at this

/-- The effect of `addProduct` on a cart with no item for the product. -/
theorem addProduct_items_of_absent (E : Engine) (c : Cart) (product : Product) (q : Int)
    (h : ∀ item ∈ c.items, item.product.id ≠ product.id) :
    (Cart.addProduct E c product q).items = c.items ++ [{ product := product, quantity := q }] := by
  have hnone : c.items.find? (fun item => item.product.id == product.id) = none := by
    rw [List.find?_eq_none]
    intro x hx
    simpa using h x hx
  simp [Cart.addProduct, hnone]

/-- The effect of `addProduct` on a cart whose only item for the product is the last one. -/
theorem addProduct_items_of_last (E : Engine) (c : Cart) (pre : List CartItem) (it : CartItem)
    (product : Product) (q : Int) (hc : c.items = pre ++ [it])
    (hpre : ∀ item ∈ pre, item.product.id ≠ product.id) (hit : it.product.id = product.id) :
    (Cart.addProduct E c product q).items = pre ++ [{ it with quantity := it.quantity + q }] := by
  have hx : (fun item : CartItem => item.product.id == product.id) it = true := by simp [hit]
  have hpre2 : ∀ y ∈ pre, (fun item : CartItem => item.product.id == product.id) y = false := by
    intro y hy
    simpa using hpre y hy
  obtain ⟨y, hy⟩ :=
    find?_append_last_isSome (fun item : CartItem => item.product.id == product.id) pre it hx
  unfold Cart.addProduct
  rw [hc, hy]
  simp only [saveToStorage_items]
  exact mutateFirst_append_last _ _ pre it hpre2 hx

theorem addAll_of_last (E : Engine) (p : Int) (pre : List CartItem) (calls : List (Product × Int)) :
    ∀ (c : Cart) (it : CartItem), c.items = pre ++ [it] →
      (∀ item ∈ pre, item.product.id ≠ p) → it.product.id = p →
      (∀ call ∈ calls, call.1.id = p) →
      (Cart.addAll E c calls).items
        = pre ++ [{ it with quantity := it.quantity + (calls.map Prod.snd).sum }] := by
  induction calls with
  | nil =>
    intro c it hc _ _ _
    simp [Cart.addAll, hc]
  | cons call rest ih =>
    intro c it hc hpre hit hid
    have hcall : call.1.id = p := hid call (List.mem_cons_self _ _)
    have hrest : ∀ call ∈ rest, call.1.id = p := fun x hx => hid x (List.mem_cons_of_mem _ hx)
    have hstep := addProduct_items_of_last E c pre it call.1 call.2 hc
      (by rw [hcall]; exact hpre) (by rw [hcall]; exact hit)
    have := ih (Cart.addProduct E c call.1 call.2) { it with quantity := it.quantity + call.2 }
      hstep hpre hit hrest
    simp only [Cart.addAll, List.foldl_cons] at this ⊢
    rw [this]
    simp [add_assoc]

theorem removeProduct_items_sublist (E : Engine) (c : Cart) (productId : Int) :
    (Cart.removeProduct E c productId).1.items.Sublist c.items := by
  unfold Cart.removeProduct
  split
  · simpa using List.eraseIdx_sublist _ _
  · exact List.Sublist.refl _

theorem UniqueIds_of_sublist {c d : Cart} (h : d.items.Sublist c.items) (hc : c.UniqueIds) :
    d.UniqueIds :=
  List.Nodup.sublist (List.Sublist.map _ h) hc

theorem addProduct_UniqueIds (E : Engine) (c : Cart) (product : Product) (q : Int)
    (hc : c.UniqueIds) : (Cart.addProduct E c product q).UniqueIds := by
  unfold Cart.addProduct
  split
  · unfold Cart.UniqueIds
    simp only [saveToStorage_items]
    rw [mutateFirst_map_id _ (fun item => item.quantity + q)]
    exact hc
  · rename_i hnone
    rw [List.find?_eq_none] at hnone
    unfold Cart.UniqueIds at hc ⊢
    simp only [saveToStorage_items, List.map_append, List.map_cons, List.map_nil]
    rw [List.nodup_append]
    refine ⟨hc, List.nodup_singleton _, ?_⟩
    intro a ha hb
    simp only [List.mem_singleton] at hb
    subst hb
    obtain ⟨x, hx, hxa⟩ := List.mem_map.1 ha
    have := hnone x hx
    simp [hxa] at this

theorem updateQuantity_UniqueIds (E : Engine) (c : Cart) (productId q : Int)
    (hc : c.UniqueIds) : (Cart.updateQuantity E c productId q).1.UniqueIds := by
  unfold Cart.updateQuantity
  split
  · split
    · exact UniqueIds_of_sublist (removeProduct_items_sublist E c productId) hc
    · unfold Cart.UniqueIds
      simp only [saveToStorage_items]
      rw [mutateFirst_map_id _ (fun _ => q)]
      exact hc
  · exact hc

theorem step_UniqueIds (E : Engine) (c : Cart) (op : CartOp) (hc : c.UniqueIds) :
    (Cart.step E c op).UniqueIds := by
  cases op with
  | addProduct product q => exact addProduct_UniqueIds E c product q hc
  | removeProduct productId =>
    exact UniqueIds_of_sublist (removeProduct_items_sublist E c productId) hc
  | updateQuantity productId q => exact updateQuantity_UniqueIds E c productId q hc
  | clear => simp [Cart.step, Cart.clear, Cart.UniqueIds]

theorem run_UniqueIds (E : Engine) (ops : List CartOp) :
    ∀ c : Cart, c.UniqueIds → (Cart.run E c ops).UniqueIds := by
  induction ops with
  | nil => intro c hc; exact hc
  | cons op rest ih =>
    intro c hc
    exact ih _ (step_UniqueIds E c op hc)

theorem getTotal_eq_floatSum (c : Cart) :
    c.getTotal = floatSum (c.items.map CartItem.lineTotal) := by
  simp only [Cart.getTotal, floatSum, floatSumFrom, List.foldl_map, CartItem.lineTotal]

set_option maxRecDepth 8000 in
/-- The total is a floating-point sum: with one item priced at the literal 0.1
    and one at 0.2 it is 0.30000000000000004, not the exact sum of the prices;
    and the widget priced at the literal 9.99 with quantity 5 totals the
    binary64 number nearest to 49.95. -/
theorem getTotal_rounds :
    (Cart.mk [⟨dime, 1⟩, ⟨twoDimes, 1⟩] Storage.empty).getTotal
        = mkRat 1351079888211149 (2 ^ 52) ∧
      (Cart.mk [⟨dime, 1⟩, ⟨twoDimes, 1⟩] Storage.empty).getTotal
        ≠ dime.list_price + twoDimes.list_price ∧
      (Cart.mk [⟨widgetDouble, 5⟩] Storage.empty).getTotal = roundDouble 4995 100 := by
  have h : (Cart.mk [⟨dime, 1⟩, ⟨twoDimes, 1⟩] Storage.empty).getTotal
      = mkRat 1351079888211149 (2 ^ 52) := by rfl
  have h1 : dime.list_price = mkRat 3602879701896397 (2 ^ 55) := by rfl
  have h2 : twoDimes.list_price = mkRat 3602879701896397 (2 ^ 54) := by rfl
  refine ⟨h, ?_, by rfl⟩
  rw [h, h1, h2]
  norm_num [Rat.mkRat_eq_div]

theorem find?_isSome_iff_findIdx? (p : CartItem → Bool) (l : List CartItem) :
    (l.find? p).isSome = (l.findIdx? p).isSome := by
  rw [List.findIdx?_isSome]
  cases h : (l.find? p).isSome with
  | true =>
    obtain ⟨x, hx, hpx⟩ := List.find?_isSome.1 h
    exact (List.any_eq_true.2 ⟨x, hx, hpx⟩).symm
  | false =>
    cases h2 : l.any p with
    | false => rfl
    | true =>
      obtain ⟨x, hx, hpx⟩ := List.any_eq_true.1 h2
      have := List.find?_isSome.2 ⟨x, hx, hpx⟩
      simp [h] at this

theorem mem_mutateFirst (p : CartItem → Bool) (f : CartItem → CartItem) (l : List CartItem)
    (y : CartItem) (hy : y ∈ mutateFirst p f l) : y ∈ l ∨ ∃ x ∈ l, y = f x := by
  induction l with
  | nil => simp [mutateFirst] at hy
  | cons x xs ih =>
    unfold mutateFirst at hy
    split at hy
    · rcases List.mem_cons.1 hy with h | h
      · exact Or.inr ⟨x, List.mem_cons_self _ _, h⟩
      · exact Or.inl (List.mem_cons_of_mem _ h)
    · rcases List.mem_cons.1 hy with h | h
      · exact Or.inl (h ▸ List.mem_cons_self _ _)
      · rcases ih h with h1 | ⟨z, hz, hyz⟩
        · exact Or.inl (List.mem_cons_of_mem _ h1)
        · exact Or.inr ⟨z, List.mem_cons_of_mem _ hz, hyz⟩

/-- Quantities stay at least 1 under every call other than an `addProduct` with
    a quantity below 1. -/
theorem step_PositiveQuantities (E : Engine) (c : Cart) (op : CartOp)
    (hc : c.PositiveQuantities) (hop : op.addsPositive) : (Cart.step E c op).PositiveQuantities := by
  cases op with
  | addProduct product q =>
    have hq : 1 ≤ q := hop
    intro y hy
    simp only [Cart.step, Cart.addProduct] at hy
    split at hy
    · rcases mem_mutateFirst _ _ _ y hy with h | ⟨x, hx, rfl⟩
      · exact hc y h
      · have := hc x hx
        show 1 ≤ x.quantity + q
        omega
    · simp only [saveToStorage_items, List.mem_append, List.mem_singleton] at hy
      rcases hy with h | rfl
      · exact hc y h
      · exact hq
  | removeProduct productId =>
    intro y hy
    exact hc y ((removeProduct_items_sublist E c productId).subset hy)
  | updateQuantity productId q =>
    intro y hy
    simp only [Cart.step, Cart.updateQuantity] at hy
    split at hy
    · split at hy
      · exact hc y ((removeProduct_items_sublist E c productId).subset hy)
      · rename_i hq
        rcases mem_mutateFirst _ _ _ y hy with h | ⟨x, _, rfl⟩
        · exact hc y h
        · show 1 ≤ q
          omega
    · exact hc y hy
  | clear =>
    intro y hy
    simp [Cart.step, Cart.clear] at hy

/-- Quantities are at least 1 in every cart reached from the empty cart by
    calls none of which is an `addProduct` with a quantity below 1. -/
theorem run_PositiveQuantities (E : Engine) (ops : List CartOp) :
    ∀ c : Cart, c.PositiveQuantities → (∀ op ∈ ops, op.addsPositive) →
      (Cart.run E c ops).PositiveQuantities := by
  induction ops with
  | nil => intro c hc _; exact hc
  | cons op rest ih =>
    intro c hc hall
    exact ih _ (step_PositiveQuantities E c op hc (hall op (List.mem_cons_self _ _)))
      (fun o ho => hall o (List.mem_cons_of_mem _ ho))

/-! ## Lemmas on cart persistence, removal and order -/

theorem product_ofJson_toJson (p : Product) : Product.ofJson p.toJson = some p := by
  simp [Product.toJson, Product.ofJson]

theorem cartItem_ofJson_toJson (item : CartItem) : CartItem.ofJson item.toJson = some item := by
  simp [CartItem.toJson, CartItem.ofJson, product_ofJson_toJson]

theorem decodeItems_itemsJson (items : List CartItem) :
    decodeItems (itemsJson items) = some items := by
  unfold decodeItems itemsJson
  induction items with
  | nil => rfl
  | cons item rest ih =>
    simp only [List.map_cons, decodeItemList, cartItem_ofJson_toJson]
    simp only [] at ih
    rw [ih]

theorem saveToStorage_getItem (E : Engine) (c : Cart) :
    (Cart.saveToStorage E c).localStorage.getItem cartKey
      = some (E.stringify (itemsJson (Cart.saveToStorage E c).items)) := by
  simp [Cart.saveToStorage, Storage.getItem, Storage.setItem, itemsJson]

theorem findIdx?_isSome_of_mem (productId : Int) (l : List CartItem)
    (h : ∃ item ∈ l, item.product.id = productId) :
    ∃ index, l.findIdx? (fun item => item.product.id == productId) = some index := by
  obtain ⟨item, hmem, hid⟩ := h
  have hfind : (l.find? (fun item => item.product.id == productId)).isSome = true :=
    List.find?_isSome.2 ⟨item, hmem, by simp [hid]⟩
  rw [find?_isSome_iff_findIdx?] at hfind
  exact Option.isSome_iff_exists.1 hfind

theorem find?_isSome_of_mem (productId : Int) (l : List CartItem)
    (h : ∃ item ∈ l, item.product.id = productId) :
    ∃ found, l.find? (fun item => item.product.id == productId) = some found := by
  obtain ⟨item, hmem, hid⟩ := h
  exact Option.isSome_iff_exists.1 (List.find?_isSome.2 ⟨item, hmem, by simp [hid]⟩)

theorem mem_of_findIdx?_eq_some (productId : Int) (l : List CartItem) (index : Nat)
    (h : l.findIdx? (fun item => item.product.id == productId) = some index) :
    ∃ item ∈ l, item.product.id = productId := by
  have hsome : (l.find? (fun item => item.product.id == productId)).isSome = true := by
    rw [find?_isSome_iff_findIdx?, h]; rfl
  obtain ⟨item, hmem, hp⟩ := List.find?_isSome.1 hsome
  exact ⟨item, hmem, by simpa using hp⟩

/-- Every call that writes leaves the encoding of the current items under the cart key. -/
theorem step_stored (E : Engine) (c : Cart) (op : CartOp) (hw : op.Writes c.items) :
    (Cart.step E c op).localStorage.getItem cartKey
      = some (E.stringify (itemsJson (Cart.step E c op).items)) := by
  cases op with
  | addProduct product q =>
    simp only [Cart.step, Cart.addProduct]
    split <;> exact saveToStorage_getItem E _
  | removeProduct productId =>
    obtain ⟨index, hidx⟩ := findIdx?_isSome_of_mem productId c.items hw
    simp only [Cart.step, Cart.removeProduct, hidx]
    exact saveToStorage_getItem E _
  | updateQuantity productId q =>
    obtain ⟨index, hidx⟩ := findIdx?_isSome_of_mem productId c.items hw
    obtain ⟨found, hfound⟩ := find?_isSome_of_mem productId c.items hw
    simp only [Cart.step, Cart.updateQuantity, hfound]
    split
    · simp only [Cart.removeProduct, hidx]
      exact saveToStorage_getItem E _
    · exact saveToStorage_getItem E _
  | clear => exact saveToStorage_getItem E _

/-- A new cart over a storage whose cart record parses to an array holds that array. -/
theorem new_of_stored_array (E : Engine) (ls : Storage) (text : String) (xs : List Json)
    (hget : ls.getItem cartKey = some text) (hne : text ≠ "")
    (hparse : E.parse text = some (.arr xs)) : Cart.new E ls = .arr xs := by
  simp [Cart.new, Cart.loadFromStorage, hget, hne, Cart.readStored, hparse]

theorem eraseIdx_findIdx?_eq_eraseP (p : CartItem → Bool) (l : List CartItem) :
    ∀ index, l.findIdx? p = some index → l.eraseIdx index = l.eraseP p := by
  induction l with
  | nil => intro index h; simp at h
  | cons x xs ih =>
    intro index h
    rw [List.findIdx?_cons] at h
    by_cases hx : p x = true
    · simp only [hx, if_true, Option.some.injEq] at h
      subst h
      simp [hx]
    · simp only [hx] at h
      rw [List.findIdx?_succ] at h
      cases hj : xs.findIdx? p with
      | none => rw [hj] at h; simp at h
      | some j =>
        rw [hj] at h
        simp only [Option.map_some', Bool.false_eq_true, if_false, Option.some.injEq] at h
        subst h
        simp [hx, ih j hj]

theorem eraseP_eq_filter_of_nodup (productId : Int) (l : List CartItem)
    (hl : (l.map (fun item => item.product.id)).Nodup) :
    l.eraseP (fun item => item.product.id == productId)
      = l.filter (fun item => item.product.id != productId) := by
  induction l with
  | nil => rfl
  | cons x xs ih =>
    rw [List.map_cons, List.nodup_cons] at hl
    by_cases hx : x.product.id = productId
    · have hrest : xs.filter (fun item => item.product.id != productId) = xs := by
        rw [List.filter_eq_self]
        intro a ha
        have : a.product.id ≠ productId := by
          intro h
          exact hl.1 (List.mem_map.2 ⟨a, ha, by rw [h, hx]⟩)
        simpa using this
      simp [hx, hrest]
    · simp [hx, ih hl.2]

theorem mutateFirst_of_split (p : CartItem → Bool) (f : CartItem → CartItem)
    (pre post : List CartItem) (x : CartItem) (hpre : ∀ y ∈ pre, p y = false) (hx : p x = true) :
    mutateFirst p f (pre ++ x :: post) = pre ++ f x :: post := by
  induction pre with
  | nil => simp [mutateFirst, hx]
  | cons y ys ih =>
    have hy : p y = false := hpre y (List.mem_cons_self _ _)
    have hys : ∀ z ∈ ys, p z = false := fun z hz => hpre z (List.mem_cons_of_mem _ hz)
    simp [mutateFirst, hy, ih hys]

theorem mutateFirst_map_product (p : CartItem → Bool) (g : CartItem → Int) (l : List CartItem) :
    (mutateFirst p (fun item => { item with quantity := g item }) l).map (fun item => item.product)
      = l.map (fun item => item.product) := by
  induction l with
  | nil => rfl
  | cons x xs ih =>
    unfold mutateFirst
    split
    · simp
    · simp [ih]

theorem foldl_add_eq_sum_int (g : CartItem → Int) (l : List CartItem) :
    ∀ a : Int, l.foldl (fun total item => total + g item) a = a + (l.map g).sum := by
  induction l with
  | nil => intro a; simp
  | cons x xs ih =>
    intro a
    simp [ih, add_assoc]

/-- The product ids after `addProduct`: unchanged when the id is present, else the id is appended. -/
theorem addProduct_ids (E : Engine) (c : Cart) (product : Product) (q : Int) :
    (Cart.addProduct E c product q).items.map (fun item => item.product.id)
      = if product.id ∈ c.items.map (fun item => item.product.id)
        then c.items.map (fun item => item.product.id)
        else c.items.map (fun item => item.product.id) ++ [product.id] := by
  unfold Cart.addProduct
  split
  · rename_i found hfound
    have hmem : product.id ∈ c.items.map (fun item => item.product.id) := by
      have hsome : (c.items.find? (fun item => item.product.id == product.id)).isSome = true := by
        rw [hfound]; rfl
      obtain ⟨item, hitem, hp⟩ := List.find?_isSome.1 hsome
      exact List.mem_map.2 ⟨item, hitem, by simpa using hp⟩
    simp only [saveToStorage_items, hmem, if_true]
    exact mutateFirst_map_id _ (fun item => item.quantity + q) _
  · rename_i hnone
    rw [List.find?_eq_none] at hnone
    have hmem : ¬ product.id ∈ c.items.map (fun item => item.product.id) := by
      intro h
      obtain ⟨item, hitem, hid⟩ := List.mem_map.1 h
      exact hnone item hitem (by simp [hid])
    simp [hmem]

theorem addAll_ids (E : Engine) (calls : List (Product × Int)) :
    ∀ c : Cart, (Cart.addAll E c calls).items.map (fun item => item.product.id)
      = List.eraseDups.loop (calls.map (fun call => call.1.id))
          (c.items.map (fun item => item.product.id)).reverse := by
  induction calls with
  | nil => intro c; simp [Cart.addAll, List.eraseDups.loop]
  | cons call rest ih =>
    intro c
    have hstep := addProduct_ids E c call.1 call.2
    have hrest := ih (Cart.addProduct E c call.1 call.2)
    simp only [Cart.addAll, List.foldl_cons] at hrest ⊢
    rw [hrest, hstep, List.map_cons, List.eraseDups.loop]
    by_cases hmem : call.1.id ∈ c.items.map (fun item => item.product.id)
    · have helem : (List.map (fun item => item.product.id) c.items).reverse.elem call.1.id = true := by
        rw [List.elem_eq_mem]; simpa using hmem
      simp only [hmem, if_true, helem]
    · have helem : (List.map (fun item => item.product.id) c.items).reverse.elem call.1.id = false := by
        rw [List.elem_eq_mem]; simpa using hmem
      simp only [hmem, if_false, helem]
      simp

/-- A list that holds an item of a product id splits at the first such item. -/
theorem first_item_split (productId : Int) (l : List CartItem)
    (h : ∃ item ∈ l, item.product.id = productId) :
    ∃ pre it post, l = pre ++ it :: post ∧ (∀ x ∈ pre, x.product.id ≠ productId) ∧
      it.product.id = productId ∧
      l.find? (fun item => item.product.id == productId) = some it := by
  obtain ⟨found, hfound⟩ := find?_isSome_of_mem productId l h
  obtain ⟨hp, pre, post, hsplit, hpre⟩ := List.find?_eq_some.1 hfound
  refine ⟨pre, found, post, hsplit, ?_, by simpa using hp, hfound⟩
  intro x hx
  simpa using hpre x hx

/-! ## Lemmas on the session manager -/

theorem truthy_json_obj (kvs : List (String × Json)) :
    (JSValue.json (.obj kvs)).truthy = true := rfl

theorem authenticate_of_not_carriesUid (E : Engine) (self : OdooAuth) (B : Browser)
    (url database username password : String) (rid : Nat) (outcome : FetchOutcome)
    (h : outcome.carriesUid = false) :
    ∃ message : String,
      OdooAuth.authenticate E self B url database username password rid outcome
        = (AuthResult.failure message,
           { self with serverUrl := .str url, database := .str database },
           { B with requests := B.requests ++ [authRequest E url database username password rid] }) := by
  cases outcome with
  | networkError m => exact ⟨m, rfl⟩
  | invalidBody m => exact ⟨m, rfl⟩
  | json data =>
    cases data with
    | null => exact ⟨E.typeErrorMessage "result", rfl⟩
    | bool b => exact ⟨_, rfl⟩
    | num n => exact ⟨_, rfl⟩
    | str t => exact ⟨_, rfl⟩
    | arr xs => exact ⟨_, rfl⟩
    | obj kvs =>
      refine ⟨"Authentication failed: Invalid credentials", ?_⟩
      simp only [FetchOutcome.carriesUid] at h
      simp only [OdooAuth.authenticate, JSValue.getProp, authRequest]
      cases hres : lookupKey "result" kvs with
      | undefined => simp [JSValue.truthy]
      | json result =>
        rw [hres] at h
        cases result with
        | null => simp [JSValue.truthy, Json.truthy]
        | bool b => cases b <;> simp [JSValue.truthy, Json.truthy, JSValue.getProp]
        | num n => by_cases hn : n = 0 <;> simp [JSValue.truthy, Json.truthy, JSValue.getProp, hn]
        | str t => by_cases ht : t = "" <;> simp [JSValue.truthy, Json.truthy, JSValue.getProp, ht]
        | arr xs => simp [JSValue.truthy, Json.truthy, JSValue.getProp]
        | obj r =>
          simp only [] at h
          simp [truthy_json_obj, JSValue.getProp, h]

theorem authenticate_of_carriesUid (E : Engine) (self : OdooAuth) (B : Browser)
    (url database username password : String) (rid : Nat) (outcome : FetchOutcome)
    (h : outcome.carriesUid = true) :
    ∃ (uid : JSValue) (sessionId : JSValue), uid.truthy = true ∧
      OdooAuth.authenticate E self B url database username password rid outcome
        = ({ success := true, sessionId := sessionId, userId := uid,
             message := "Authentication successful" },
           { sessionId := sessionId, userId := uid, serverUrl := .str url,
             database := .str database },
           OdooAuth.saveSession E
             { sessionId := sessionId, userId := uid, serverUrl := .str url,
               database := .str database }
             { B with
               requests := B.requests ++ [authRequest E url database username password rid] }) := by
  cases outcome with
  | networkError m => simp [FetchOutcome.carriesUid] at h
  | invalidBody m => simp [FetchOutcome.carriesUid] at h
  | json data =>
    cases data with
    | obj kvs =>
      simp only [FetchOutcome.carriesUid] at h
      cases hres : lookupKey "result" kvs with
      | undefined => rw [hres] at h; simp at h
      | json result =>
        rw [hres] at h
        cases result with
        | obj r =>
          simp only [] at h
          refine ⟨lookupKey "uid" r, lookupKey "session_id" r, h, ?_⟩
          simp [OdooAuth.authenticate, JSValue.getProp, authRequest, hres, truthy_json_obj, h]
        | _ => simp at h
    | _ => simp [FetchOutcome.carriesUid] at h

theorem authenticate_success_eq_carriesUid (E : Engine) (self : OdooAuth) (B : Browser)
    (url database username password : String) (rid : Nat) (outcome : FetchOutcome) :
    (OdooAuth.authenticate E self B url database username password rid outcome).1.success
      = outcome.carriesUid := by
  cases h : outcome.carriesUid with
  | false =>
    obtain ⟨m, hm⟩ := authenticate_of_not_carriesUid E self B url database username password rid
      outcome h
    rw [hm]; rfl
  | true =>
    obtain ⟨uid, sid, _, hm⟩ := authenticate_of_carriesUid E self B url database username password
      rid outcome h
    rw [hm]

theorem getItem_setItem (st : Storage) (key value : String) :
    (st.setItem key value).getItem key = some value := by
  simp [Storage.getItem, Storage.setItem]

theorem getItem_removeItem (st : Storage) (key : String) :
    (st.removeItem key).getItem key = none := by
  simp [Storage.getItem, Storage.removeItem]

theorem loadSession_of_no_record (E : Engine) (self : OdooAuth) (B : Browser)
    (h : B.sessionStorage.getItem sessionKey = none) :
    OdooAuth.loadSession E self B = .ok (false, self) := by
  simp [OdooAuth.loadSession, h]

theorem step_SignedOut (E : Engine) (state : OdooAuth × Browser) (a : AuthAction)
    (hs : SignedOut state) (ha : a.carriesUid = false) : SignedOut (OdooAuth.step E state a) := by
  obtain ⟨hu, hst⟩ := hs
  cases a with
  | authenticate url database username password rid outcome =>
    obtain ⟨m, hm⟩ := authenticate_of_not_carriesUid E state.1 state.2 url database username
      password rid outcome ha
    simp only [OdooAuth.step, hm]
    exact ⟨hu, hst⟩
  | loadSession =>
    simp only [OdooAuth.step, loadSession_of_no_record E state.1 state.2 hst]
    exact ⟨hu, hst⟩
  | logout =>
    exact ⟨rfl, getItem_removeItem _ _⟩

theorem run_SignedOut (E : Engine) (actions : List AuthAction) :
    ∀ state : OdooAuth × Browser, SignedOut state → (∀ a ∈ actions, a.carriesUid = false) →
      SignedOut (OdooAuth.run E state actions) := by
  induction actions with
  | nil => intro state hs _; exact hs
  | cons a rest ih =>
    intro state hs hall
    exact ih _ (step_SignedOut E state a hs (hall a (List.mem_cons_self _ _)))
      (fun b hb => hall b (List.mem_cons_of_mem _ hb))

/-! ## Claims on the cart -/

/-- C1: from a cart with no item for product id `p`, after a non-empty sequence
    of `addProduct` calls that all carry product id `p`, the cart holds exactly
    one item whose product id is `p` (it is appended after the items that were
    there) and its quantity is the sum of the quantities added. -/
theorem addProduct_same_id_sums (E : Engine) (c : Cart) (p : Int) (calls : List (Product × Int))
    (hfresh : ∀ item ∈ c.items, item.product.id ≠ p)
    (hne : calls ≠ [])
    (hid : ∀ call ∈ calls, call.1.id = p) :
    ∃ item : CartItem,
      (Cart.addAll E c calls).items.filter (fun i => i.product.id == p) = [item] ∧
      item.quantity = (calls.map Prod.snd).sum ∧
      (Cart.addAll E c calls).items = c.items ++ [item] := by
  cases calls with
  | nil => exact absurd rfl hne
  | cons call rest =>
    have hcall : call.1.id = p := hid call (List.mem_cons_self _ _)
    have hrest : ∀ x ∈ rest, x.1.id = p := fun x hx => hid x (List.mem_cons_of_mem _ hx)
    have hfirst := addProduct_items_of_absent E c call.1 call.2 (by rw [hcall]; exact hfresh)
    have hall := addAll_of_last E p c.items rest (Cart.addProduct E c call.1 call.2)
      { product := call.1, quantity := call.2 } hfirst hfresh hcall hrest
    have hrun : (Cart.addAll E c (call :: rest)).items
        = c.items ++ [{ product := call.1, quantity := call.2 + (rest.map Prod.snd).sum }] := by
      simpa [Cart.addAll] using hall
    refine ⟨{ product := call.1, quantity := call.2 + (rest.map Prod.snd).sum }, ?_, ?_, hrun⟩
    · rw [hrun, List.filter_append]
      have hnil : c.items.filter (fun i => i.product.id == p) = [] := by
        rw [List.filter_eq_nil_iff]
        intro a ha
        simpa using hfresh a ha
      rw [hnil]
      simp [hcall]
    · simp

/-- Witness of C1: the worked example, `addProduct(widget, 2)` then `addProduct(widget, 3)`. -/
theorem addProduct_same_id_sums_witness :
    ∃ item : CartItem,
      (Cart.addAll miniEngine (Cart.emptyOver Storage.empty) [(widget, 2), (widget, 3)]).items.filter
          (fun i => i.product.id == 1) = [item] ∧
      item.quantity = ([(widget, 2), (widget, 3)].map Prod.snd).sum ∧
      (Cart.addAll miniEngine (Cart.emptyOver Storage.empty) [(widget, 2), (widget, 3)]).items
        = (Cart.emptyOver Storage.empty).items ++ [item] :=
  addProduct_same_id_sums miniEngine (Cart.emptyOver Storage.empty) 1 [(widget, 2), (widget, 3)]
    (by simp [Cart.emptyOver]) (by simp) (by simp [widget])

/-- C2: if no two items share a product id before a call, none do after
    `addProduct`, `removeProduct`, `updateQuantity` or `clear`, whatever the
    arguments; hence no two items share a product id in any cart reached from
    the empty cart by a sequence of these calls. -/
theorem uniqueIds_invariant (E : Engine) (c : Cart) (hc : c.UniqueIds) (op : CartOp)
    (ls : Storage) (ops : List CartOp) :
    (Cart.step E c op).UniqueIds ∧ (Cart.run E (Cart.emptyOver ls) ops).UniqueIds :=
  ⟨step_UniqueIds E c op hc,
   run_UniqueIds E ops (Cart.emptyOver ls) (by simp [Cart.emptyOver, Cart.UniqueIds])⟩

/-- Witness of C2: a cart holding two products, then an `addProduct` of one of them. -/
theorem uniqueIds_invariant_witness :
    (Cart.step miniEngine { items := [⟨widget, 2⟩, ⟨gadget, 1⟩], localStorage := Storage.empty }
        (.addProduct widget 3)).UniqueIds ∧
      (Cart.run miniEngine (Cart.emptyOver Storage.empty)
        [.addProduct widget 2, .updateQuantity 1 0, .addProduct widget 1]).UniqueIds :=
  uniqueIds_invariant miniEngine { items := [⟨widget, 2⟩, ⟨gadget, 1⟩], localStorage := Storage.empty }
    (by simp [Cart.UniqueIds, widget, gadget]) (.addProduct widget 3) Storage.empty
    [.addProduct widget 2, .updateQuantity 1 0, .addProduct widget 1]

/-- C3 (the code at the failing input): `addProduct(widget, 0)` on the empty cart
    stores an item of quantity 0, and `addProduct(widget, -2)` after
    `addProduct(widget, 1)` leaves an item of quantity -1: reachable carts hold
    items of quantity below 1. -/
theorem addProduct_stores_nonpositive_quantity (E : Engine) (ls : Storage) :
    (Cart.run E (Cart.emptyOver ls) [.addProduct widget 0]).items
        = [{ product := widget, quantity := 0 }] ∧
      (Cart.run E (Cart.emptyOver ls) [.addProduct widget 1, .addProduct widget (-2)]).items
        = [{ product := widget, quantity := -1 }] := by
  constructor <;>
    simp [Cart.run, Cart.step, Cart.addProduct, Cart.emptyOver, mutateFirst]

/-- C4: for every cart, product id and quantity `q ≤ 0`, `updateQuantity(id, q)`
    and `removeProduct(id)` leave the same item list and the same storage
    (hence the same stored cart record) and return the same boolean. -/
theorem updateQuantity_nonpos_eq_removeProduct (E : Engine) (c : Cart) (productId q : Int)
    (hq : q ≤ 0) :
    Cart.updateQuantity E c productId q = Cart.removeProduct E c productId := by
  have hsome := find?_isSome_iff_findIdx? (fun item : CartItem => item.product.id == productId)
    c.items
  unfold Cart.updateQuantity
  cases hfind : c.items.find? (fun item => item.product.id == productId) with
  | some item =>
    rw [hfind] at hsome
    simp only [hq, if_true]
    cases hidx : c.items.findIdx? (fun item => item.product.id == productId) with
    | none => rw [hidx] at hsome; simp at hsome
    | some index => simp [Cart.removeProduct, hidx]
  | none =>
    rw [hfind] at hsome
    cases hidx : c.items.findIdx? (fun item => item.product.id == productId) with
    | none => simp [Cart.removeProduct, hidx]
    | some index => rw [hidx] at hsome; simp at hsome

/-- Witness of C4: `updateQuantity(1, 0)` on a cart holding the widget and the gadget. -/
theorem updateQuantity_nonpos_eq_removeProduct_witness :
    Cart.updateQuantity miniEngine
        { items := [⟨widget, 2⟩, ⟨gadget, 1⟩], localStorage := Storage.empty } 1 0
      = Cart.removeProduct miniEngine
        { items := [⟨widget, 2⟩, ⟨gadget, 1⟩], localStorage := Storage.empty } 1 :=
  updateQuantity_nonpos_eq_removeProduct miniEngine
    { items := [⟨widget, 2⟩, ⟨gadget, 1⟩], localStorage := Storage.empty } 1 0 (by decide)

/-- C5: `getTotal()` is the sum over the items of `list_price × quantity`, in
    the floating-point arithmetic of the code: the products are added to the
    running total from the left, in item order, starting from 0; on the empty
    cart `getTotal()` is 0 and `isEmpty()` is true; and `isEmpty()` is true only
    when the cart has no item. -/
theorem getTotal_eq_sum_and_isEmpty (c : Cart) (ls : Storage) :
    c.getTotal
        = floatSum (c.items.map
            (fun item => jsMul item.product.list_price (item.quantity : Rat))) ∧
      (Cart.emptyOver ls).getTotal = 0 ∧ (Cart.emptyOver ls).isEmpty = true ∧
      (c.isEmpty = true ↔ c.items = []) := by
  refine ⟨?_, rfl, rfl, ?_⟩
  · simp only [Cart.getTotal, floatSum, floatSumFrom, List.foldl_map]
  · simp [Cart.isEmpty]

/-! ## Claims on the session manager -/

/-- C6 (the claim fails): on a freshly constructed manager, an `authenticate`
    that is rejected returns a failure result, yet `serverUrl` and `database`
    are not null afterwards: they hold the values passed to the call. -/
theorem authenticate_failure_sets_serverUrl :
    (OdooAuth.authenticate miniEngine OdooAuth.new Browser.fresh "https://erp.example" "shop"
        "admin" "wrong" 42 loginRejected).1.success = false ∧
      (OdooAuth.authenticate miniEngine OdooAuth.new Browser.fresh "https://erp.example" "shop"
        "admin" "wrong" 42 loginRejected).2.1.serverUrl.isNotNull = true ∧
      (OdooAuth.authenticate miniEngine OdooAuth.new Browser.fresh "https://erp.example" "shop"
        "admin" "wrong" 42 loginRejected).2.1.database.isNotNull = true := by
  refine ⟨rfl, rfl, rfl⟩

/-- C6 (amended): when `authenticate` fails (the response carries no result or
    no user identifier, cannot be parsed, or the transport fails) it returns a
    failure result whose message is the reason (the transport or parse error
    message, or the invalid-credentials message for a non-null response), it
    leaves `userId`, `sessionId` and the session storage as they were, and
    `serverUrl` and `database` hold the values passed to the call; on a fresh
    manager `isAuthenticated()` is therefore still false. -/
theorem authenticate_failure_state (E : Engine) (self : OdooAuth) (B : Browser)
    (url database username password : String) (rid : Nat) (outcome : FetchOutcome)
    (hfail : outcome.carriesUid = false) :
    (OdooAuth.authenticate E self B url database username password rid outcome).1
        = AuthResult.failure
          (OdooAuth.authenticate E self B url database username password rid outcome).1.message ∧
      (OdooAuth.authenticate E self B url database username password rid outcome).2.1
        = { sessionId := self.sessionId, userId := self.userId, serverUrl := .str url,
            database := .str database } ∧
      (OdooAuth.authenticate E self B url database username password rid outcome).2.2.sessionStorage
        = B.sessionStorage ∧
      (OdooAuth.authenticate E OdooAuth.new B url database username password rid
        outcome).2.1.isAuthenticated = false ∧
      (∀ m, outcome = .networkError m →
        (OdooAuth.authenticate E self B url database username password rid outcome).1.message = m) ∧
      (∀ m, outcome = .invalidBody m →
        (OdooAuth.authenticate E self B url database username password rid outcome).1.message = m) ∧
      (∀ data, outcome = .json data → JSValue.isNotNull (.json data) = true →
        (OdooAuth.authenticate E self B url database username password rid outcome).1.message
          = "Authentication failed: Invalid credentials") := by
  obtain ⟨m, hm⟩ := authenticate_of_not_carriesUid E self B url database username password rid
    outcome hfail
  obtain ⟨m0, hm0⟩ := authenticate_of_not_carriesUid E OdooAuth.new B url database username
    password rid outcome hfail
  refine ⟨by rw [hm]; rfl, by rw [hm], by rw [hm], by rw [hm0]; rfl, ?_, ?_, ?_⟩
  · intro m1 h1; subst h1; rfl
  · intro m1 h1; subst h1; rfl
  · intro data h1 hnn
    subst h1
    cases data with
    | null => simp [JSValue.isNotNull] at hnn
    | bool b => rfl
    | num n => rfl
    | str t => rfl
    | arr xs => rfl
    | obj kvs =>
      simp only [FetchOutcome.carriesUid] at hfail
      simp only [OdooAuth.authenticate, JSValue.getProp]
      cases hres : lookupKey "result" kvs with
      | undefined => simp [JSValue.truthy, AuthResult.failure]
      | json result =>
        rw [hres] at hfail
        cases result with
        | null => simp [JSValue.truthy, Json.truthy, AuthResult.failure]
        | bool b => cases b <;> simp [JSValue.truthy, Json.truthy, JSValue.getProp, AuthResult.failure]
        | num n =>
          by_cases hn : n = 0 <;>
            simp [JSValue.truthy, Json.truthy, JSValue.getProp, hn, AuthResult.failure]
        | str t =>
          by_cases ht : t = "" <;>
            simp [JSValue.truthy, Json.truthy, JSValue.getProp, ht, AuthResult.failure]
        | arr xs => simp [JSValue.truthy, Json.truthy, JSValue.getProp, AuthResult.failure]
        | obj r =>
          simp only [] at hfail
          simp [truthy_json_obj, JSValue.getProp, hfail, AuthResult.failure]

/-- Witness of C6 (amended): a signed-in manager whose new login is rejected. -/
theorem authenticate_failure_state_witness :
    (OdooAuth.authenticate miniEngine signedIn Browser.fresh "https://other.example" "db2"
        "admin" "wrong" 42 loginRejected).2.1
      = { sessionId := signedIn.sessionId, userId := signedIn.userId,
          serverUrl := .str "https://other.example", database := .str "db2" } :=
  (authenticate_failure_state miniEngine signedIn Browser.fresh "https://other.example" "db2"
    "admin" "wrong" 42 loginRejected rfl).2.1

/-- C7 (the claim fails): over a session storage that holds a session record,
    `isAuthenticated()` is false on a freshly constructed manager and true
    after a `loadSession()`, although no `authenticate` call was made on the
    manager and no request was issued. -/
theorem loadSession_signs_in_without_authenticate :
    OdooAuth.new.isAuthenticated = false ∧
      AuthAction.carriesUid .loadSession = false ∧
      (OdooAuth.run miniEngine (OdooAuth.new, restoredBrowser)
        [.loadSession]).1.isAuthenticated = true ∧
      (OdooAuth.run miniEngine (OdooAuth.new, restoredBrowser) [.loadSession]).2.requests = [] := by
  refine ⟨rfl, rfl, rfl, rfl⟩

/-- C7 (amended): `isAuthenticated()` is false on a freshly constructed manager;
    as long as the session storage holds no session record at the start, it
    stays false after any sequence of calls (`authenticate`, `loadSession`,
    `logout`) in which no `authenticate` receives a response carrying a user
    identifier; it is true right after an `authenticate` whose response
    carries a user identifier, whatever the state before; and it is false
    after `logout()`. -/
theorem isAuthenticated_lifecycle (E : Engine) (B : Browser)
    (hB : B.sessionStorage.getItem sessionKey = none)
    (actions : List AuthAction) (hfail : ∀ a ∈ actions, a.carriesUid = false)
    (self : OdooAuth) (B1 : Browser) (url database username password : String) (rid : Nat)
    (outcome : FetchOutcome) (hok : outcome.carriesUid = true) :
    OdooAuth.new.isAuthenticated = false ∧
      (OdooAuth.run E (OdooAuth.new, B) actions).1.isAuthenticated = false ∧
      (OdooAuth.authenticate E self B1 url database username password rid
        outcome).1.success = true ∧
      (OdooAuth.authenticate E self B1 url database username password rid
        outcome).2.1.isAuthenticated = true ∧
      (OdooAuth.logout
        (OdooAuth.authenticate E self B1 url database username password rid outcome).2.1
        (OdooAuth.authenticate E self B1 url database username password rid
          outcome).2.2).1.isAuthenticated = false := by
  have hrun := run_SignedOut E actions (OdooAuth.new, B) ⟨rfl, hB⟩ hfail
  obtain ⟨uid, sid, huid, hm⟩ := authenticate_of_carriesUid E self B1 url database username
    password rid outcome hok
  refine ⟨rfl, ?_, by rw [hm], ?_, rfl⟩
  · simp [OdooAuth.isAuthenticated, hrun.1, JSValue.isNotNull, JSValue.null]
  · rw [hm]
    simp only [OdooAuth.isAuthenticated]
    cases uid with
    | undefined => simp [JSValue.truthy] at huid
    | json v =>
      cases v with
      | null => simp [JSValue.truthy, Json.truthy] at huid
      | _ => rfl

/-- Witness of C7 (amended): two rejected logins, a `loadSession` and a `logout` on a fresh
    browser, then an accepted login. -/
theorem isAuthenticated_lifecycle_witness :
    (OdooAuth.run miniEngine (OdooAuth.new, Browser.fresh)
        [.authenticate "https://erp.example" "shop" "admin" "wrong" 1 loginRejected,
         .loadSession, .logout,
         .authenticate "https://erp.example" "shop" "admin" "bad" 2
           (.networkError "Failed to fetch")]).1.isAuthenticated = false ∧
      (OdooAuth.authenticate miniEngine OdooAuth.new Browser.fresh "https://erp.example" "shop"
        "admin" "secret" 3 loginOk).2.1.isAuthenticated = true :=
  have h := isAuthenticated_lifecycle miniEngine Browser.fresh rfl
    [.authenticate "https://erp.example" "shop" "admin" "wrong" 1 loginRejected,
     .loadSession, .logout,
     .authenticate "https://erp.example" "shop" "admin" "bad" 2 (.networkError "Failed to fetch")]
    (by simp [AuthAction.carriesUid, FetchOutcome.carriesUid, loginRejected, lookupKey,
      JSValue.truthy, Json.truthy])
    OdooAuth.new Browser.fresh "https://erp.example" "shop" "admin" "secret" 3 loginOk rfl
  ⟨h.2.1, h.2.2.2.1⟩

/-- C8: if `authenticate` succeeds on one manager with server address `s`,
    database `d` and returned user id `u`, and the engine reads back the session
    record it wrote (`JSON.parse` undoes `JSON.stringify` on it, and its text is
    not empty), then `loadSession` on a fresh manager over the same storage
    returns true and sets `userId = u`, `serverUrl = s`, `database = d`, with
    `sessionId` still null; and when no session record is stored `loadSession`
    returns false and changes no field. -/
theorem loadSession_after_authenticate (E : Engine) (self : OdooAuth) (B : Browser)
    (s d username password : String) (rid : Nat) (outcome : FetchOutcome)
    (hok : (OdooAuth.authenticate E self B s d username password rid outcome).1.success = true)
    (hrt : E.parse (E.stringify (sessionRecord
        (OdooAuth.authenticate E self B s d username password rid outcome).1.userId
        (.str s) (.str d)))
      = some (sessionRecord
        (OdooAuth.authenticate E self B s d username password rid outcome).1.userId
        (.str s) (.str d)))
    (hne : E.stringify (sessionRecord
        (OdooAuth.authenticate E self B s d username password rid outcome).1.userId
        (.str s) (.str d)) ≠ "")
    (other : OdooAuth) (B0 : Browser) (hnone : B0.sessionStorage.getItem sessionKey = none) :
    OdooAuth.loadSession E OdooAuth.new
        (OdooAuth.authenticate E self B s d username password rid outcome).2.2
      = .ok (true,
          { sessionId := .null,
            userId := (OdooAuth.authenticate E self B s d username password rid outcome).1.userId,
            serverUrl := .str s, database := .str d }) ∧
      OdooAuth.loadSession E other B0 = .ok (false, other) := by
  refine ⟨?_, loadSession_of_no_record E other B0 hnone⟩
  rw [authenticate_success_eq_carriesUid] at hok
  obtain ⟨uid, sid, huid, hm⟩ := authenticate_of_carriesUid E self B s d username password rid
    outcome hok
  rw [hm] at hrt hne ⊢
  simp only [] at hrt hne ⊢
  cases uid with
  | undefined => simp [JSValue.truthy] at huid
  | json u =>
    have hsave : (OdooAuth.saveSession E
        { sessionId := sid, userId := .json u, serverUrl := .str s, database := .str d }
        { B with requests := B.requests ++ [authRequest E s d username password rid] }
        ).sessionStorage.getItem sessionKey
        = some (E.stringify (sessionRecord (.json u) (.str s) (.str d))) := by
      simp only [OdooAuth.saveSession, huid, if_true]
      exact getItem_setItem _ _ _
    simp only [OdooAuth.loadSession, hsave, hne, hrt, ne_eq, not_false_eq_true, if_true]
    simp [sessionRecord, objectLiteral, JSValue.str, JSValue.getProp, lookupKey, OdooAuth.new]

/-- Witness of C8: a login answered with user id 7, read back with the concrete engine. -/
theorem loadSession_after_authenticate_witness :
    OdooAuth.loadSession miniEngine OdooAuth.new
        (OdooAuth.authenticate miniEngine OdooAuth.new Browser.fresh "https://erp.example" "shop"
          "admin" "secret" 3 loginOk).2.2
      = .ok (true,
          { sessionId := .null, userId := .json (.num 7),
            serverUrl := .str "https://erp.example", database := .str "shop" }) ∧
      OdooAuth.loadSession miniEngine signedIn Browser.fresh = .ok (false, signedIn) :=
  loadSession_after_authenticate miniEngine OdooAuth.new Browser.fresh "https://erp.example"
    "shop" "admin" "secret" 3 loginOk rfl rfl (by decide) signedIn Browser.fresh rfl

/-! ## Claims on the RPC wrapper -/

/-- C9: for every endpoint and params, `call` on a client whose session is not
    authenticated throws the not-authenticated error and issues no request:
    the browser, and so the trace of requests, is unchanged. -/
theorem call_not_authenticated (E : Engine) (auth : OdooAuth) (B : Browser) (endpoint : String)
    (params : Json) (rid : Nat) (outcome : FetchOutcome) (h : auth.isAuthenticated = false) :
    OdooAPI.call E auth B endpoint params rid outcome
      = (.error ⟨"Not authenticated. Please login first."⟩, B) := by
  simp [OdooAPI.call, h]

/-- Witness of C9: a `call` on a freshly constructed manager. -/
theorem call_not_authenticated_witness :
    OdooAPI.call miniEngine OdooAuth.new Browser.fresh "/web/dataset/call_kw" (.obj []) 5
        (.json (.obj [("result", .num 1)]))
      = (.error ⟨"Not authenticated. Please login first."⟩, Browser.fresh) :=
  call_not_authenticated miniEngine OdooAuth.new Browser.fresh "/web/dataset/call_kw" (.obj []) 5
    (.json (.obj [("result", .num 1)])) rfl

/-- C10 (the claim fails): the response `{error: {message: "Access Denied"}}`
    contains an error object whose `message` the server supplied, yet `call`
    throws the generic message. -/
theorem call_generic_despite_error_message :
    lookupKey "message" [("message", Json.str "Access Denied")]
        = .json (.str "Access Denied") ∧
      (OdooAPI.call miniEngine signedIn Browser.fresh "/web/dataset/call_kw" (.obj []) 5
        (.json (.obj [("error", .obj [("message", .str "Access Denied")])]))).1
        = .error ⟨"API call failed"⟩ := by
  refine ⟨rfl, rfl⟩

/-- C10 (amended): on an authenticated client, for every response object whose
    `error` member is an object, `call` throws: the error carries the string
    form of `error.data.message` when that is truthy (the message itself when
    it is a non-empty string) and the generic message `API call failed` when
    `error.data` or `error.data.message` is absent, null or empty, whatever
    `error.message` holds; for every response object whose `error` member is
    absent or falsy, `call` returns the `result` member unchanged. -/
theorem call_response (E : Engine) (auth : OdooAuth) (B : Browser) (endpoint : String)
    (params : Json) (rid : Nat) (kvs : List (String × Json)) (h : auth.isAuthenticated = true) :
    (∀ ekvs, lookupKey "error" kvs = .json (.obj ekvs) →
      ((lookupKey "data" ekvs).getPropOpt "message").truthy = true →
      (OdooAPI.call E auth B endpoint params rid (.json (.obj kvs))).1
        = .error ⟨((lookupKey "data" ekvs).getPropOpt "message").toStr E⟩) ∧
    (∀ ekvs m, lookupKey "error" kvs = .json (.obj ekvs) →
      (lookupKey "data" ekvs).getPropOpt "message" = .str m → m ≠ "" →
      (OdooAPI.call E auth B endpoint params rid (.json (.obj kvs))).1 = .error ⟨m⟩) ∧
    (∀ ekvs, lookupKey "error" kvs = .json (.obj ekvs) →
      ((lookupKey "data" ekvs).getPropOpt "message").truthy = false →
      (OdooAPI.call E auth B endpoint params rid (.json (.obj kvs))).1
        = .error ⟨"API call failed"⟩) ∧
    ((lookupKey "error" kvs).truthy = false →
      (OdooAPI.call E auth B endpoint params rid (.json (.obj kvs))).1
        = .ok (lookupKey "result" kvs)) := by
  have hinfo : auth.getSessionInfo
      = some { userId := auth.userId, serverUrl := auth.serverUrl, database := auth.database } := by
    simp [OdooAuth.getSessionInfo, h]
  refine ⟨?_, ?_, ?_, ?_⟩
  · intro ekvs herr hmsg
    simp [OdooAPI.call, h, hinfo, JSValue.getProp, herr, truthy_json_obj, hmsg]
  · intro ekvs m herr hmsg hm
    have ht : ((lookupKey "data" ekvs).getPropOpt "message").truthy = true := by
      rw [hmsg]; simp [JSValue.str, JSValue.truthy, Json.truthy, hm]
    simp [OdooAPI.call, h, hinfo, JSValue.getProp, herr, truthy_json_obj, ht]
    rw [hmsg]; rfl
  · intro ekvs herr hmsg
    simp [OdooAPI.call, h, hinfo, JSValue.getProp, herr, truthy_json_obj, hmsg]
  · intro herr
    simp [OdooAPI.call, h, hinfo, JSValue.getProp, herr]

/-- Witness of C10 (amended): a rejected call with a detailed message, and a successful call. -/
theorem call_response_witness :
    (OdooAPI.call miniEngine signedIn Browser.fresh "/web/dataset/call_kw" (.obj []) 5
        (.json (.obj [("error", .obj [("message", .str "Odoo Server Error"),
          ("data", .obj [("message", .str "Access Denied")])])]))).1
        = .error ⟨"Access Denied"⟩ ∧
      (OdooAPI.call miniEngine signedIn Browser.fresh "/web/dataset/call_kw" (.obj []) 5
        (.json (.obj [("result", .num 12)]))).1 = .ok (.json (.num 12)) :=
  ⟨(call_response miniEngine signedIn Browser.fresh "/web/dataset/call_kw" (.obj []) 5
      [("error", .obj [("message", .str "Odoo Server Error"),
        ("data", .obj [("message", .str "Access Denied")])])] rfl).2.1
      [("message", .str "Odoo Server Error"), ("data", .obj [("message", .str "Access Denied")])]
      "Access Denied" rfl rfl (by decide),
   (call_response miniEngine signedIn Browser.fresh "/web/dataset/call_kw" (.obj []) 5
      [("result", .num 12)] rfl).2.2.2 rfl⟩

/-! ## Claims on cart persistence and reads -/

/-- C11: after every mutating call (`addProduct`; `removeProduct` or
    `updateQuantity` on a product id that is present; `clear`) the record
    stored under the cart key is the encoding of the full current item list;
    so, on an engine whose `JSON.parse` reads that record back, a cart
    constructed afresh from that storage holds the same items, with the same
    products and quantities in the same order. -/
theorem cart_persistence_round_trip (E : Engine) (c : Cart) (op : CartOp)
    (hw : op.Writes c.items)
    (hrt : E.parse (E.stringify (itemsJson (Cart.step E c op).items))
      = some (itemsJson (Cart.step E c op).items))
    (hne : E.stringify (itemsJson (Cart.step E c op).items) ≠ "") :
    (Cart.step E c op).localStorage.getItem cartKey
        = some (E.stringify (itemsJson (Cart.step E c op).items)) ∧
      Cart.new E (Cart.step E c op).localStorage = itemsJson (Cart.step E c op).items ∧
      decodeItems (Cart.new E (Cart.step E c op).localStorage)
        = some (Cart.step E c op).items := by
  have hget := step_stored E c op hw
  have hnew : Cart.new E (Cart.step E c op).localStorage = itemsJson (Cart.step E c op).items :=
    new_of_stored_array E _ _ _ hget hne hrt
  exact ⟨hget, hnew, by rw [hnew]; exact decodeItems_itemsJson _⟩

set_option maxRecDepth 8000 in
/-- Witness of C11: `updateQuantity(2, 4)` on a cart holding the widget and the gadget. -/
theorem cart_persistence_round_trip_witness :
    decodeItems (Cart.new miniEngine
        (Cart.step miniEngine { items := [⟨widget, 2⟩, ⟨gadget, 1⟩], localStorage := Storage.empty }
          (.updateQuantity 2 4)).localStorage)
      = some (Cart.step miniEngine
          { items := [⟨widget, 2⟩, ⟨gadget, 1⟩], localStorage := Storage.empty }
          (.updateQuantity 2 4)).items :=
  (cart_persistence_round_trip miniEngine
    { items := [⟨widget, 2⟩, ⟨gadget, 1⟩], localStorage := Storage.empty } (.updateQuantity 2 4)
    ⟨⟨gadget, 1⟩, by simp, rfl⟩ rfl (by decide)).2.2

/-- C12: after `clear()` every read gives the empty result (`getItems()` is
    empty, `getItemCount()` is 0, `getTotal()` is 0, `isEmpty()` is true,
    `getOrderLines()` is empty), and, on an engine whose `JSON.parse` reads
    back the stored empty array, a cart constructed afresh from the storage
    left by `clear()` is empty. -/
theorem clear_empties (E : Engine) (c : Cart)
    (hrt : E.parse (E.stringify (itemsJson [])) = some (itemsJson [])) :
    (Cart.clear E c).getItems = [] ∧ (Cart.clear E c).getItemCount = 0 ∧
      (Cart.clear E c).getTotal = 0 ∧ (Cart.clear E c).isEmpty = true ∧
      (Cart.clear E c).getOrderLines = [] ∧
      Cart.new E (Cart.clear E c).localStorage = itemsJson [] ∧
      decodeItems (Cart.new E (Cart.clear E c).localStorage) = some [] := by
  have hget : (Cart.clear E c).localStorage.getItem cartKey
      = some (E.stringify (itemsJson [])) := saveToStorage_getItem E _
  have hnew : Cart.new E (Cart.clear E c).localStorage = itemsJson [] := by
    by_cases hne : E.stringify (itemsJson []) = ""
    · have hget2 : (Cart.clear E c).localStorage.getItem cartKey = some "" := by rw [hget, hne]
      simp [Cart.new, Cart.loadFromStorage, hget2, itemsJson]
    · exact new_of_stored_array E _ _ _ hget hne hrt
  exact ⟨rfl, rfl, rfl, rfl, rfl, hnew, by rw [hnew]; rfl⟩

/-- Witness of C12: `clear()` on a cart holding the widget and the gadget. -/
theorem clear_empties_witness :
    Cart.new miniEngine (Cart.clear miniEngine
        { items := [⟨widget, 2⟩, ⟨gadget, 1⟩], localStorage := Storage.empty }).localStorage
      = itemsJson [] :=
  (clear_empties miniEngine { items := [⟨widget, 2⟩, ⟨gadget, 1⟩], localStorage := Storage.empty }
    rfl).2.2.2.2.2.1

/-- C13 (the claim fails): over a storage whose cart record is the text `5`,
    construction completes with `this.items` equal to the number 5, which is
    neither a sequence of `{product, quantity}` items nor the empty cart. -/
theorem new_of_number_record :
    Cart.new miniEngine (Storage.empty.setItem cartKey "5") = .num 5 ∧
      decodeItems (Cart.new miniEngine (Storage.empty.setItem cartKey "5")) = none := by
  refine ⟨rfl, rfl⟩

/-- C13 (amended): construction always completes (`Cart.new` is total: every
    error thrown while reading the record is caught); the new cart is empty
    when no record is stored, when the record is the empty string, when it
    is not JSON, and when it is the JSON `null`; and it holds the decoded
    item list when the record is the encoding of an item list. -/
theorem new_total (E : Engine) (ls : Storage) :
    (ls.getItem cartKey = none → Cart.new E ls = itemsJson []) ∧
      (ls.getItem cartKey = some "" → Cart.new E ls = itemsJson []) ∧
      (∀ text, ls.getItem cartKey = some text → E.parse text = none →
        Cart.new E ls = itemsJson []) ∧
      (∀ text, ls.getItem cartKey = some text → E.parse text = some .null →
        Cart.new E ls = itemsJson []) ∧
      (∀ text items, ls.getItem cartKey = some text → text ≠ "" →
        E.parse text = some (itemsJson items) →
        Cart.new E ls = itemsJson items ∧ decodeItems (Cart.new E ls) = some items) := by
  refine ⟨?_, ?_, ?_, ?_, ?_⟩
  · intro h
    simp [Cart.new, Cart.loadFromStorage, h, itemsJson]
  · intro h
    simp [Cart.new, Cart.loadFromStorage, h, itemsJson]
  · intro text h hparse
    by_cases hne : text = "" <;>
      simp [Cart.new, Cart.loadFromStorage, h, hne, Cart.readStored, hparse, itemsJson]
  · intro text h hparse
    by_cases hne : text = "" <;>
      simp [Cart.new, Cart.loadFromStorage, h, hne, Cart.readStored, hparse, itemsJson]
  · intro text items h hne hparse
    have hnew : Cart.new E ls = itemsJson items := new_of_stored_array E ls text _ h hne hparse
    exact ⟨hnew, by rw [hnew]; exact decodeItems_itemsJson _⟩

/-- Witness of C13 (amended): a record that is not JSON, and the record of a one-item cart. -/
theorem new_total_witness :
    Cart.new miniEngine (Storage.empty.setItem cartKey "not json") = itemsJson [] ∧
      decodeItems (Cart.new miniEngine
        (Storage.empty.setItem cartKey (miniEngine.stringify (itemsJson [⟨gadget, 3⟩]))))
        = some [⟨gadget, 3⟩] :=
  ⟨(new_total miniEngine (Storage.empty.setItem cartKey "not json")).2.2.1 "not json" rfl rfl,
   ((new_total miniEngine
      (Storage.empty.setItem cartKey (miniEngine.stringify (itemsJson [⟨gadget, 3⟩])))).2.2.2.2
      (miniEngine.stringify (itemsJson [⟨gadget, 3⟩])) [⟨gadget, 3⟩] rfl (by decide) rfl).2⟩

/-- C14: `removeProduct(id)` returns true exactly when the cart holds an item
    with that product id; in that case, ids being unique, the resulting items
    are the items of another id, unchanged and in their relative order (so no
    item with that id is left); otherwise it returns false and the item list
    and the storage are unchanged. -/
theorem removeProduct_spec (E : Engine) (c : Cart) (productId : Int) :
    ((Cart.removeProduct E c productId).2 = true ↔
        ∃ item ∈ c.items, item.product.id = productId) ∧
      ((Cart.removeProduct E c productId).2 = true → c.UniqueIds →
        (Cart.removeProduct E c productId).1.items
          = c.items.filter (fun item => item.product.id != productId)) ∧
      ((Cart.removeProduct E c productId).2 = false → (Cart.removeProduct E c productId).1 = c) := by
  cases hidx : c.items.findIdx? (fun item => item.product.id == productId) with
  | none =>
    have hno : ¬ ∃ item ∈ c.items, item.product.id = productId := by
      intro h
      obtain ⟨index, hi⟩ := findIdx?_isSome_of_mem productId c.items h
      rw [hidx] at hi
      exact Option.noConfusion hi
    have hval : Cart.removeProduct E c productId = (c, false) := by
      simp only [Cart.removeProduct, hidx]
    rw [hval]
    exact ⟨⟨fun h => Bool.noConfusion h, fun h => absurd h hno⟩, fun h => Bool.noConfusion h,
      fun _ => rfl⟩
  | some index =>
    have hval : Cart.removeProduct E c productId
        = (Cart.saveToStorage E { c with items := c.items.eraseIdx index }, true) := by
      simp only [Cart.removeProduct, hidx]
    rw [hval]
    refine ⟨⟨fun _ => mem_of_findIdx?_eq_some productId c.items index hidx, fun _ => rfl⟩, ?_,
      fun h => Bool.noConfusion h⟩
    intro _ hu
    show c.items.eraseIdx index = _
    rw [eraseIdx_findIdx?_eq_eraseP _ _ index hidx]
    exact eraseP_eq_filter_of_nodup productId c.items hu

/-- Witness of C14: `removeProduct(1)` on a cart holding the widget and the gadget. -/
theorem removeProduct_spec_witness :
    (Cart.removeProduct miniEngine
        { items := [⟨widget, 2⟩, ⟨gadget, 1⟩], localStorage := Storage.empty } 1).1.items
      = [⟨widget, 2⟩, ⟨gadget, 1⟩].filter (fun item => item.product.id != 1) :=
  (removeProduct_spec miniEngine
    { items := [⟨widget, 2⟩, ⟨gadget, 1⟩], localStorage := Storage.empty } 1).2.1 rfl
    (by simp [Cart.UniqueIds, widget, gadget])

/-- C15: for `q > 0`, `updateQuantity(id, q)` returns true exactly when an item
    with that id exists; in that case the quantity of that item (the first
    with the id) becomes `q` while its product, every other item and the
    order are unchanged; when no item matches it returns false and the items
    and the storage are unchanged. -/
theorem updateQuantity_spec (E : Engine) (c : Cart) (productId q : Int) (hq : 0 < q) :
    ((Cart.updateQuantity E c productId q).2 = true ↔
        ∃ item ∈ c.items, item.product.id = productId) ∧
      (∀ pre it post, c.items = pre ++ it :: post →
        (∀ x ∈ pre, x.product.id ≠ productId) → it.product.id = productId →
        (Cart.updateQuantity E c productId q).1.items
          = pre ++ { product := it.product, quantity := q } :: post) ∧
      ((Cart.updateQuantity E c productId q).2 = false →
        (Cart.updateQuantity E c productId q).1 = c) := by
  have hnq : ¬ q ≤ 0 := by omega
  cases hfind : c.items.find? (fun item => item.product.id == productId) with
  | none =>
    have hno : ∀ x ∈ c.items, x.product.id ≠ productId := by
      intro x hx
      simpa using List.find?_eq_none.1 hfind x hx
    have hval : Cart.updateQuantity E c productId q = (c, false) := by
      simp only [Cart.updateQuantity, hfind]
    rw [hval]
    refine ⟨⟨fun h => Bool.noConfusion h, fun ⟨item, hmem, hid⟩ => absurd hid (hno item hmem)⟩,
      ?_, fun _ => rfl⟩
    intro pre it post hc _ hit
    exact absurd hit (hno it (by rw [hc]; simp))
  | some found =>
    have hmem : ∃ item ∈ c.items, item.product.id = productId := by
      have hsome : (c.items.find? (fun item => item.product.id == productId)).isSome = true := by
        rw [hfind]; rfl
      obtain ⟨item, hitem, hp⟩ := List.find?_isSome.1 hsome
      exact ⟨item, hitem, by simpa using hp⟩
    have hval : Cart.updateQuantity E c productId q
        = (Cart.saveToStorage E
            { c with
              items := mutateFirst (fun item => item.product.id == productId)
                (fun item => { item with quantity := q }) c.items }, true) := by
      simp only [Cart.updateQuantity, hfind, hnq, if_false]
    rw [hval]
    refine ⟨⟨fun _ => hmem, fun _ => rfl⟩, ?_, fun h => Bool.noConfusion h⟩
    intro pre it post hc hpre hit
    show mutateFirst _ _ c.items = _
    rw [hc]
    exact mutateFirst_of_split _ _ pre post it (fun y hy => by simpa using hpre y hy)
      (by simp [hit])

/-- Witness of C15: `updateQuantity(2, 4)` on a cart holding the widget and the gadget. -/
theorem updateQuantity_spec_witness :
    (Cart.updateQuantity miniEngine
        { items := [⟨widget, 2⟩, ⟨gadget, 1⟩], localStorage := Storage.empty } 2 4).1.items
      = [⟨widget, 2⟩] ++ { product := gadget, quantity := 4 } :: [] :=
  (updateQuantity_spec miniEngine
    { items := [⟨widget, 2⟩, ⟨gadget, 1⟩], localStorage := Storage.empty } 2 4 (by decide)).2.1
    [⟨widget, 2⟩] ⟨gadget, 1⟩ [] rfl (by simp [widget]) rfl

/-- C16: `getItemCount()` is the sum of the quantities of the items, not their
    number; it is 0 on the empty cart and 5 after adding the same product
    with quantities 2 and 3. -/
theorem getItemCount_eq_sum (E : Engine) (c : Cart) (ls : Storage) (product : Product) :
    c.getItemCount = (c.items.map (fun item => item.quantity)).sum ∧
      (Cart.emptyOver ls).getItemCount = 0 ∧
      (Cart.addAll E (Cart.emptyOver ls) [(product, 2), (product, 3)]).getItemCount = 5 ∧
      (Cart.addAll E (Cart.emptyOver ls) [(product, 2), (product, 3)]).items.length = 1 := by
  refine ⟨?_, rfl, ?_, ?_⟩
  · unfold Cart.getItemCount
    rw [foldl_add_eq_sum_int (fun item => item.quantity)]
    simp
  · simp [Cart.addAll, Cart.addProduct, Cart.emptyOver, mutateFirst, Cart.getItemCount]
  · simp [Cart.addAll, Cart.addProduct, Cart.emptyOver, mutateFirst]

/-- C17: `getItems()` lists the items in the order in which their product ids
    were first added; `addProduct` of a new id appends at the end;
    `addProduct` or `updateQuantity` (with a positive quantity) of an existing
    id leaves every product at its position; `updateQuantity` with a
    quantity `≤ 0` and `removeProduct` keep the relative order of the items
    that remain. -/
theorem getItems_insertion_order (E : Engine) (c : Cart) (ls : Storage)
    (calls : List (Product × Int)) (product : Product) (productId q : Int) :
    (Cart.addAll E (Cart.emptyOver ls) calls).getItems.map (fun item => item.product.id)
        = (calls.map (fun call => call.1.id)).eraseDups ∧
      ((∀ item ∈ c.items, item.product.id ≠ product.id) →
        (Cart.addProduct E c product q).getItems
          = c.getItems ++ [{ product := product, quantity := q }]) ∧
      ((∃ item ∈ c.items, item.product.id = product.id) →
        (Cart.addProduct E c product q).getItems.map (fun item => item.product)
          = c.getItems.map (fun item => item.product)) ∧
      (0 < q →
        (Cart.updateQuantity E c productId q).1.getItems.map (fun item => item.product)
          = c.getItems.map (fun item => item.product)) ∧
      (q ≤ 0 → (Cart.updateQuantity E c productId q).1.getItems.Sublist c.getItems) ∧
      (Cart.removeProduct E c productId).1.getItems.Sublist c.getItems := by
  refine ⟨?_, ?_, ?_, ?_, ?_⟩
  · have h := addAll_ids E calls (Cart.emptyOver ls)
    simpa [Cart.getItems, Cart.emptyOver, List.eraseDups] using h
  · intro h
    exact addProduct_items_of_absent E c product q h
  · intro h
    obtain ⟨found, hfound⟩ := find?_isSome_of_mem product.id c.items h
    simp only [Cart.getItems, Cart.addProduct, hfound, saveToStorage_items]
    exact mutateFirst_map_product _ (fun item => item.quantity + q) _
  · intro hq
    have hnq : ¬ q ≤ 0 := by omega
    simp only [Cart.getItems, Cart.updateQuantity]
    split
    · simp only [hnq, if_false, saveToStorage_items]
      exact mutateFirst_map_product _ (fun _ => q) _
    · rfl
  · refine ⟨?_, removeProduct_items_sublist E c productId⟩
    intro hle
    have hsub := removeProduct_items_sublist E c productId
    simp only [Cart.getItems, Cart.updateQuantity]
    split
    · simp only [hle, if_true]
      exact hsub
    · exact List.Sublist.refl _

/-- Witness of C17: adding the gadget to a cart that holds the widget appends it,
    and adding the widget again leaves the products where they are. -/
theorem getItems_insertion_order_witness :
    (Cart.addProduct miniEngine { items := [⟨widget, 2⟩], localStorage := Storage.empty }
        gadget 1).getItems
        = (Cart.getItems { items := [⟨widget, 2⟩], localStorage := Storage.empty })
          ++ [{ product := gadget, quantity := 1 }] ∧
      (Cart.addProduct miniEngine { items := [⟨widget, 2⟩, ⟨gadget, 1⟩], localStorage := Storage.empty }
        widget 1).getItems.map (fun item => item.product)
        = (Cart.getItems { items := [⟨widget, 2⟩, ⟨gadget, 1⟩], localStorage := Storage.empty }).map
          (fun item => item.product) :=
  ⟨(getItems_insertion_order miniEngine { items := [⟨widget, 2⟩], localStorage := Storage.empty }
      Storage.empty [] gadget 0 1).2.1 (by simp [widget, gadget]),
   (getItems_insertion_order miniEngine
      { items := [⟨widget, 2⟩, ⟨gadget, 1⟩], localStorage := Storage.empty }
      Storage.empty [] widget 0 1).2.2.1 ⟨⟨widget, 2⟩, by simp, rfl⟩⟩

/-- C18: `getOrderLines()` returns one order line per cart item, in the same
    order, and the line at each position carries the product id, quantity,
    `list_price` and name of the item at that position; the method reads the
    cart and changes nothing. -/
theorem getOrderLines_spec (c : Cart) :
    c.getOrderLines.length = c.items.length ∧
      ∀ (i : Nat) (item : CartItem), c.items[i]? = some item →
        c.getOrderLines[i]? = some
          { product_id := item.product.id, product_uom_qty := item.quantity,
            price_unit := item.product.list_price, name := item.product.name } := by
  refine ⟨by simp [Cart.getOrderLines], ?_⟩
  intro i item h
  simp [Cart.getOrderLines, h]

/-- Witness of C18: the second order line of a cart holding the widget and the gadget. -/
theorem getOrderLines_spec_witness :
    (Cart.getOrderLines { items := [⟨widget, 2⟩, ⟨gadget, 1⟩], localStorage := Storage.empty })[1]?
      = some { product_id := 2, product_uom_qty := 1, price_unit := 5, name := "Gadget" } :=
  (getOrderLines_spec { items := [⟨widget, 2⟩, ⟨gadget, 1⟩], localStorage := Storage.empty }).2 1
    ⟨gadget, 1⟩ rfl

/-! ## Claims on order creation and logout -/

/-- C19 (the claim fails): for an order line whose name is empty the values
    sent carry the name `Produit 1`, not the name of the line; and on a client
    that is not authenticated `createSaleOrder` issues no request at all. -/
theorem createSaleOrder_name_fallback :
    OdooAPI.orderData miniEngine 7
        [{ product_id := 1, product_uom_qty := 2, price_unit := 5, name := "" }]
        = .obj [("partner_id", .num 7),
            ("order_line", .arr [createTriple (lineValues
              { product_id := 1, product_uom_qty := 2, price_unit := 5, name := "" }
              "Produit 1")]),
            ("state", .str "draft")] ∧
      (OdooAPI.createSaleOrder miniEngine OdooAuth.new Browser.fresh 7
        [{ product_id := 1, product_uom_qty := 2, price_unit := 5, name := "Widget" }] 42
        (.json (.obj [("result", .num 12)]))).2.requests = [] := by
  refine ⟨rfl, rfl⟩

/-- C19 (amended): for every partner id and every list of order lines,
    `createSaleOrder` on an authenticated client issues exactly one request,
    a `create` on the model `sale.order` sent to the `call_kw` endpoint of the
    session's server, whose values are the partner reference, the state
    `draft`, and an `order_line` list holding one triple `[0, 0, values]` per
    input line in the same order, where `values` carries the product id,
    quantity and unit price of the line and its name, or `Produit <id>` when
    the name of the line is empty; on a client that is not authenticated it
    throws the not-authenticated error and issues no request. -/
theorem createSaleOrder_spec (E : Engine) (auth : OdooAuth) (B : Browser) (partnerId : Int)
    (orderLines : List OrderLine) (rid : Nat) (outcome : FetchOutcome) :
    (auth.isAuthenticated = true →
      (OdooAPI.createSaleOrder E auth B partnerId orderLines rid outcome).2.requests
        = B.requests ++
          [{ url := auth.serverUrl.toStr E ++ "/web/dataset/call_kw",
             body := E.stringify (requestEnvelope
               (createParams "sale.order" (OdooAPI.orderData E partnerId orderLines)) rid) }]) ∧
      (auth.isAuthenticated = false →
        OdooAPI.createSaleOrder E auth B partnerId orderLines rid outcome
          = (.error ⟨"Not authenticated. Please login first."⟩, B)) ∧
      ∃ lines : List Json,
        OdooAPI.orderData E partnerId orderLines
          = .obj [("partner_id", .num partnerId), ("order_line", .arr lines),
              ("state", .str "draft")] ∧
        lines.length = orderLines.length ∧
        ∀ (i : Nat) (line : OrderLine), orderLines[i]? = some line →
          lines[i]? = some (createTriple (lineValues line
            (if line.name ≠ "" then line.name
             else "Produit " ++ E.display (.num line.product_id)))) := by
  refine ⟨?_, ?_, ?_⟩
  · intro h
    have hinfo : auth.getSessionInfo
        = some { userId := auth.userId, serverUrl := auth.serverUrl,
                 database := auth.database } := by
      simp [OdooAuth.getSessionInfo, h]
    simp only [OdooAPI.createSaleOrder, OdooAPI.create, OdooAPI.call, h, hinfo, createParams]
    cases outcome with
    | networkError m => rfl
    | invalidBody m => rfl
    | json data =>
      simp only [Bool.not_true, Bool.false_eq_true, if_false]
      split
      · rfl
      · split
        · split
          · rfl
          · split <;> rfl
        · split <;> rfl
  · intro h
    simp [OdooAPI.createSaleOrder, OdooAPI.create, OdooAPI.call, h]
  · refine ⟨_, rfl, by simp, ?_⟩
    intro i line hline
    simp [hline, createTriple, lineValues, JSValue.toStr]

/-- Witness of C19 (amended): an order of one line on a signed-in client, and
    the same order on a freshly constructed manager. -/
theorem createSaleOrder_spec_witness :
    (OdooAPI.createSaleOrder miniEngine signedIn Browser.fresh 7
        [{ product_id := 1, product_uom_qty := 2, price_unit := 5, name := "Widget" }] 42
        (.json (.obj [("result", .num 12)]))).2.requests
      = Browser.fresh.requests ++
        [{ url := signedIn.serverUrl.toStr miniEngine ++ "/web/dataset/call_kw",
           body := miniEngine.stringify (requestEnvelope
             (createParams "sale.order" (OdooAPI.orderData miniEngine 7
               [{ product_id := 1, product_uom_qty := 2, price_unit := 5, name := "Widget" }]))
             42) }] ∧
      OdooAPI.createSaleOrder miniEngine OdooAuth.new Browser.fresh 7
        [{ product_id := 1, product_uom_qty := 2, price_unit := 5, name := "Widget" }] 42
        (.json (.obj [("result", .num 12)]))
        = (.error ⟨"Not authenticated. Please login first."⟩, Browser.fresh) :=
  ⟨(createSaleOrder_spec miniEngine signedIn Browser.fresh 7
      [{ product_id := 1, product_uom_qty := 2, price_unit := 5, name := "Widget" }] 42
      (.json (.obj [("result", .num 12)]))).1 rfl,
   (createSaleOrder_spec miniEngine OdooAuth.new Browser.fresh 7
      [{ product_id := 1, product_uom_qty := 2, price_unit := 5, name := "Widget" }] 42
      (.json (.obj [("result", .num 12)]))).2.1 rfl⟩

/-- C20: `logout()` leaves `userId`, `sessionId`, `serverUrl` and `database`
    null and erases the stored session record, so that a following
    `loadSession` returns false and changes nothing; and calling `logout()`
    twice leaves the same fields and the same storage as calling it once. -/
theorem logout_clears_idempotent (E : Engine) (self other : OdooAuth) (B : Browser) :
    (OdooAuth.logout self B).1
        = { sessionId := .null, userId := .null, serverUrl := .null, database := .null } ∧
      (OdooAuth.logout self B).2.sessionStorage.getItem sessionKey = none ∧
      OdooAuth.loadSession E other (OdooAuth.logout self B).2 = .ok (false, other) ∧
      OdooAuth.logout (OdooAuth.logout self B).1 (OdooAuth.logout self B).2
        = OdooAuth.logout self B := by
  have hget : (OdooAuth.logout self B).2.sessionStorage.getItem sessionKey = none :=
    getItem_removeItem _ _
  refine ⟨rfl, hget, loadSession_of_no_record E other _ hget, ?_⟩
  simp only [OdooAuth.logout]
  congr 2
  funext k
  simp only [Storage.removeItem]
  split <;> rfl

/-! ## Claim on repeated additions -/

set_option maxRecDepth 8000 in
/-- C21 (the claim fails): a cart holds the widget, priced at the literal 9.99,
    with quantity 5, so `getTotal()` is 49.95; after `addProduct(widget, 1)`
    `getTotal()` is 59.94, which is neither the old total plus the stored
    `list_price × 1` in exact arithmetic nor their floating-point sum
    (59.940000000000005). -/
theorem addProduct_total_not_additive :
    (Cart.mk [⟨widgetDouble, 5⟩] Storage.empty).getTotal = mkRat 3514918771674317 (2 ^ 46) ∧
      (Cart.addProduct miniEngine (Cart.mk [⟨widgetDouble, 5⟩] Storage.empty)
        widgetDouble 1).getTotal = mkRat 1054475631502295 (2 ^ 44) ∧
      (Cart.addProduct miniEngine (Cart.mk [⟨widgetDouble, 5⟩] Storage.empty)
        widgetDouble 1).getTotal
        ≠ (Cart.mk [⟨widgetDouble, 5⟩] Storage.empty).getTotal
          + widgetDouble.list_price * ((1 : Int) : Rat) ∧
      (Cart.addProduct miniEngine (Cart.mk [⟨widgetDouble, 5⟩] Storage.empty)
        widgetDouble 1).getTotal
        ≠ jsAdd (Cart.mk [⟨widgetDouble, 5⟩] Storage.empty).getTotal
          (jsMul widgetDouble.list_price ((1 : Int) : Rat)) := by
  have h0 : (Cart.mk [⟨widgetDouble, 5⟩] Storage.empty).getTotal
      = mkRat 3514918771674317 (2 ^ 46) := by rfl
  have h1 : (Cart.addProduct miniEngine (Cart.mk [⟨widgetDouble, 5⟩] Storage.empty)
      widgetDouble 1).getTotal = mkRat 1054475631502295 (2 ^ 44) := by rfl
  have hp : widgetDouble.list_price = mkRat 5623870034678907 (2 ^ 49) := by rfl
  have hs : jsAdd (mkRat 3514918771674317 (2 ^ 46))
      (jsMul (mkRat 5623870034678907 (2 ^ 49)) ((1 : Int) : Rat))
      = mkRat 8435805052018361 (2 ^ 47) := by rfl
  refine ⟨h0, h1, ?_, ?_⟩
  · rw [h1, h0, hp]
    norm_num [Rat.mkRat_eq_div]
  · rw [h1, h0, hp, hs]
    norm_num [Rat.mkRat_eq_div]

/-- C21 (amended): on a cart that already holds an item for product id `p`,
    `addProduct(product, q)` with `product.id = p` changes only the quantity
    of that item (the first with the id): the stored product record stays the
    one stored before, whatever data `product` carries, and every other item
    and the order are unchanged; so `getTotal()` is afterwards the
    floating-point sum in which the term of that item is the stored
    `list_price × (quantity + q)` and every other term is as before. -/
theorem addProduct_existing_keeps_product (E : Engine) (c : Cart) (product : Product) (q : Int)
    (h : ∃ item ∈ c.items, item.product.id = product.id) :
    ∃ pre it post, c.items = pre ++ it :: post ∧
      (∀ x ∈ pre, x.product.id ≠ product.id) ∧ it.product.id = product.id ∧
      (Cart.addProduct E c product q).items
        = pre ++ { product := it.product, quantity := it.quantity + q } :: post ∧
      c.getTotal
        = floatSum (pre.map CartItem.lineTotal
            ++ jsMul it.product.list_price (it.quantity : Rat) :: post.map CartItem.lineTotal) ∧
      (Cart.addProduct E c product q).getTotal
        = floatSum (pre.map CartItem.lineTotal
            ++ jsMul it.product.list_price ((it.quantity + q : Int) : Rat)
              :: post.map CartItem.lineTotal) := by
  obtain ⟨pre, it, post, hsplit, hpre, hit, hfind⟩ := first_item_split product.id c.items h
  have hitems : (Cart.addProduct E c product q).items
      = pre ++ { product := it.product, quantity := it.quantity + q } :: post := by
    simp only [Cart.addProduct, hfind, saveToStorage_items]
    rw [hsplit]
    exact mutateFirst_of_split _ _ pre post it (fun y hy => by simpa using hpre y hy)
      (by simp [hit])
  refine ⟨pre, it, post, hsplit, hpre, hit, hitems, ?_, ?_⟩
  · rw [getTotal_eq_floatSum, hsplit]
    simp [CartItem.lineTotal]
  · rw [getTotal_eq_floatSum, hitems]
    simp [CartItem.lineTotal]

/-- Witness of C21 (amended): adding product id 1 under another name and price
    to a cart that holds the widget and the gadget. -/
theorem addProduct_existing_keeps_product_witness :
    ∃ pre it post,
      (Cart.mk [⟨widgetDouble, 2⟩, ⟨gadget, 1⟩] Storage.empty).items = pre ++ it :: post ∧
      (∀ x ∈ pre, x.product.id ≠ (Product.mk 1 "Renamed" 100 []).id) ∧
      it.product.id = (Product.mk 1 "Renamed" 100 []).id ∧
      (Cart.addProduct miniEngine (Cart.mk [⟨widgetDouble, 2⟩, ⟨gadget, 1⟩] Storage.empty)
        (Product.mk 1 "Renamed" 100 []) 3).items
        = pre ++ { product := it.product, quantity := it.quantity + 3 } :: post ∧
      (Cart.mk [⟨widgetDouble, 2⟩, ⟨gadget, 1⟩] Storage.empty).getTotal
        = floatSum (pre.map CartItem.lineTotal
            ++ jsMul it.product.list_price (it.quantity : Rat) :: post.map CartItem.lineTotal) ∧
      (Cart.addProduct miniEngine (Cart.mk [⟨widgetDouble, 2⟩, ⟨gadget, 1⟩] Storage.empty)
        (Product.mk 1 "Renamed" 100 []) 3).getTotal
        = floatSum (pre.map CartItem.lineTotal
            ++ jsMul it.product.list_price ((it.quantity + 3 : Int) : Rat)
              :: post.map CartItem.lineTotal) :=
  addProduct_existing_keeps_product miniEngine (Cart.mk [⟨widgetDouble, 2⟩, ⟨gadget, 1⟩] Storage.empty)
    (Product.mk 1 "Renamed" 100 []) 3 ⟨⟨widgetDouble, 2⟩, by simp, rfl⟩

end Storefront
